import Mathlib

/-!
Pololu USB SDK protocol headers: a verification development.

The four `protocol.h` headers (Jrk, Maestro, Simple Motor Controller, Simple
Motor Controller G2) are tables of constants and record layouts. Each table is
embedded as the list of its entries in declaration order; enumerators and
`#define`d constants keep their source names and literal values.
Properties of the tables are then proved by evaluation.
-/

/-! ## Bytes and bits -/

/-- Number of bit positions (of the low eight) at which two bytes differ. -/
def bitDistance (a b : Nat) : Nat :=
  ((List.range 8).filter (fun i => a.testBit i != b.testBit i)).length

/-- The byte `a` with bit `i` inverted. -/
def flipBit (a i : Nat) : Nat := a ^^^ (1 <<< i)

/-- Whether a value fits in one byte. -/
def fitsByte (a : Nat) : Prop := a < 256

instance (a : Nat) : Decidable (fitsByte a) := by unfold fitsByte; infer_instance

/-- Whether the most significant bit of a byte is set. -/
def msbSet (a : Nat) : Prop := a.testBit 7 = true

instance (a : Nat) : Decidable (msbSet a) := by unfold msbSet; infer_instance


/-! ## C record layouts

Records are byte-packed: the headers document every offset without padding and
the Simple Motor Controller structs carry `__attribute__((packed))`. -/

/-- The member types that occur in the headers. -/
inductive CType where
  | u8
  | u16
  | s16
  | u32
  | array (elem : CType) (len : Nat)
  | struct (members : List CType)

mutual
/-- Size in bytes of a type under byte-packed layout. -/
def CType.size : CType → Nat
  | .u8 => 1
  | .u16 => 2
  | .s16 => 2
  | .u32 => 4
  | .array e n => e.size * n
  | .struct ms => CType.sizeList ms
/-- Size in bytes of a run of members laid out back to back. -/
def CType.sizeList : List CType → Nat
  | [] => 0
  | m :: ms => m.size + CType.sizeList ms
end

/-- One member of a record: its name, its type, and the offset the header's
comment gives for it (`none` when the header gives no offset). -/
structure Member where
  name : String
  type : CType
  commentOffset : Option Nat

/-- Size in bytes of a member. -/
def Member.size (f : Member) : Nat := f.type.size

/-- Byte-packed offset of member number `i` of a record whose first member is
at offset `base`: `base` plus the sizes of all members declared before it. -/
def packedOffset (base : Nat) (fields : List Member) (i : Nat) : Nat :=
  base + ((fields.take i).map Member.size).sum

/-- Total size in bytes of a byte-packed record. -/
def recordSize (fields : List Member) : Nat := (fields.map Member.size).sum

/-! ## Parameter tables -/

/-- The width a parameter's comment documents. -/
inductive ParamKind where
  | oneBit
  | oneByte
  | twoByte
  deriving DecidableEq

/-- Bytes of parameter space a parameter of the given kind occupies. -/
def ParamKind.width : ParamKind → Nat
  | .oneBit => 1
  | .oneByte => 1
  | .twoByte => 2

/-- A parameter: its enumerator value (the offset in parameter space) and its
documented kind. -/
structure Param where
  id : Nat
  kind : ParamKind
  deriving DecidableEq

/-- Bytes occupied by a parameter. -/
def Param.width (p : Param) : Nat := p.kind.width

/-- The ranges `[id, id + width)` of two parameters have no offset in common. -/
def Param.disjoint (p q : Param) : Prop := p.id + p.width ≤ q.id ∨ q.id + q.width ≤ p.id

instance (p q : Param) : Decidable (Param.disjoint p q) := by
  unfold Param.disjoint; infer_instance

/-- Parameter `q` starts exactly where parameter `p` ends. -/
def Param.follows (p q : Param) : Prop := q.id = p.id + p.width

instance (p q : Param) : Decidable (Param.follows p q) := by
  unfold Param.follows; infer_instance

/-- Every entry of the list starts exactly where the entry before it ends. -/
def contiguous : List Param → Prop
  | p :: q :: rest => Param.follows p q ∧ contiguous (q :: rest)
  | _ => True

instance : (l : List Param) → Decidable (contiguous l)
  | [] => isTrue trivial
  | [_] => isTrue trivial
  | p :: q :: rest =>
    have := instDecidableContiguous (q :: rest)
    show Decidable (Param.follows p q ∧ contiguous (q :: rest)) from inferInstance

/-! ## Jrk: `src/Jrk/protocol.h` -/

namespace Jrk

/-! ### `enum jrkCommand` -/

def COMMAND_GET_VARIABLE : Nat := 0b10000000
def BITMASK_FOR_COMMAND_GET_VARIABLE : Nat := 0b11000000
def COMMAND_GET_STATUS_FLAGS_HALTING : Nat := 0xA0 + 19
def COMMAND_GET_STATUS_FLAGS_OCCURRED : Nat := 0xA0 + 21
def COMMAND_SET_TARGET : Nat := 0b11000000
def BITMASK_FOR_COMMAND_SET_TARGET : Nat := 0b11100000
def COMMAND_SET_TARGET_LOW_RES_REVERSE : Nat := 0b11100000
def COMMAND_SET_TARGET_LOW_RES_FORWARD : Nat := 0b11100001
def COMMAND_MOTOR_OFF : Nat := 0b11111111

/-- The command enumerators of `jrkCommand`, the two `BITMASK_` entries left out. -/
def jrkCommand : List Nat :=
  [COMMAND_GET_VARIABLE, COMMAND_GET_STATUS_FLAGS_HALTING,
   COMMAND_GET_STATUS_FLAGS_OCCURRED, COMMAND_SET_TARGET,
   COMMAND_SET_TARGET_LOW_RES_REVERSE, COMMAND_SET_TARGET_LOW_RES_FORWARD,
   COMMAND_MOTOR_OFF]

/-! ### `enum jrkRequest` -/

def REQUEST_GET_PARAMETER : Nat := 0x81
def REQUEST_SET_PARAMETER : Nat := 0x82
def REQUEST_GET_VARIABLES : Nat := 0x83
def REQUEST_SET_TARGET : Nat := 0x84
def REQUEST_CLEAR_ERRORS : Nat := 0x86
def REQUEST_MOTOR_OFF : Nat := 0x87
def REQUEST_REINITIALIZE : Nat := 0x90
def REQUEST_START_BOOTLOADER : Nat := 0xFF

def jrkRequest : List Nat :=
  [REQUEST_GET_PARAMETER, REQUEST_SET_PARAMETER, REQUEST_GET_VARIABLES,
   REQUEST_SET_TARGET, REQUEST_CLEAR_ERRORS, REQUEST_MOTOR_OFF,
   REQUEST_REINITIALIZE, REQUEST_START_BOOTLOADER]

/-! ### `struct jrkVariables`

The header numbers the offsets from one. It notes that no two-byte variable may
sit at one-based offset 10, because the command for getting it would be 0xAA,
the start byte of the Pololu Protocol. -/

def jrkVariables : List Member :=
  [⟨"input", .u16, some 1⟩,
   ⟨"target", .u16, some 3⟩,
   ⟨"feedback", .u16, some 5⟩,
   ⟨"scaledFeedback", .u16, some 7⟩,
   ⟨"errorSum", .s16, some 9⟩,
   ⟨"dutyCycleTarget", .s16, some 11⟩,
   ⟨"dutyCycle", .s16, some 13⟩,
   ⟨"current", .u8, some 15⟩,
   ⟨"pidPeriodExceeded", .u8, some 16⟩,
   ⟨"pidPeriodCount", .u16, some 17⟩,
   ⟨"errorFlagBits", .u16, some 19⟩,
   ⟨"errorOccurredBits", .u16, some 21⟩]

/-- Start byte of the Pololu Protocol, as named in the note above `jrkVariables`. -/
def POLOLU_PROTOCOL_START_BYTE : Nat := 0xAA

/-- Command byte for getting the two-byte variable at one-based offset `o`: the
form `0xA0+19`, `0xA0+21` of `COMMAND_GET_STATUS_FLAGS_HALTING` and
`COMMAND_GET_STATUS_FLAGS_OCCURRED`. -/
def getVariable16Command (o : Nat) : Nat := 0xA0 + o

/-! ### `enum jrkParameter` -/

def PARAMETER_INPUT_MODE : Param := ⟨1, .oneByte⟩
def PARAMETER_INPUT_MINIMUM : Param := ⟨2, .twoByte⟩
def PARAMETER_INPUT_MAXIMUM : Param := ⟨6, .twoByte⟩
def PARAMETER_OUTPUT_MINIMUM : Param := ⟨8, .twoByte⟩
def PARAMETER_OUTPUT_NEUTRAL : Param := ⟨10, .twoByte⟩
def PARAMETER_OUTPUT_MAXIMUM : Param := ⟨12, .twoByte⟩
def PARAMETER_INPUT_INVERT : Param := ⟨16, .oneBit⟩
def PARAMETER_INPUT_SCALING_DEGREE : Param := ⟨17, .oneBit⟩
def PARAMETER_INPUT_POWER_WITH_AUX : Param := ⟨18, .oneBit⟩
def PARAMETER_INPUT_ANALOG_SAMPLES_EXPONENT : Param := ⟨20, .oneByte⟩
def PARAMETER_INPUT_DISCONNECT_MINIMUM : Param := ⟨22, .twoByte⟩
def PARAMETER_INPUT_DISCONNECT_MAXIMUM : Param := ⟨24, .twoByte⟩
def PARAMETER_INPUT_NEUTRAL_MAXIMUM : Param := ⟨26, .twoByte⟩
def PARAMETER_INPUT_NEUTRAL_MINIMUM : Param := ⟨28, .twoByte⟩
def PARAMETER_SERIAL_MODE : Param := ⟨30, .oneByte⟩
def PARAMETER_SERIAL_FIXED_BAUD_RATE : Param := ⟨31, .twoByte⟩
def PARAMETER_SERIAL_TIMEOUT : Param := ⟨34, .twoByte⟩
def PARAMETER_SERIAL_ENABLE_CRC : Param := ⟨36, .oneBit⟩
def PARAMETER_SERIAL_NEVER_SUSPEND : Param := ⟨37, .oneBit⟩
def PARAMETER_SERIAL_DEVICE_NUMBER : Param := ⟨38, .oneByte⟩
def PARAMETER_FEEDBACK_MODE : Param := ⟨50, .oneByte⟩
def PARAMETER_FEEDBACK_MINIMUM : Param := ⟨51, .twoByte⟩
def PARAMETER_FEEDBACK_MAXIMUM : Param := ⟨53, .twoByte⟩
def PARAMETER_FEEDBACK_INVERT : Param := ⟨55, .oneBit⟩
def PARAMETER_FEEDBACK_POWER_WITH_AUX : Param := ⟨57, .oneBit⟩
def PARAMETER_FEEDBACK_DEAD_ZONE : Param := ⟨58, .oneByte⟩
def PARAMETER_FEEDBACK_ANALOG_SAMPLES_EXPONENT : Param := ⟨59, .oneByte⟩
def PARAMETER_FEEDBACK_DISCONNECT_MINIMUM : Param := ⟨61, .twoByte⟩
def PARAMETER_FEEDBACK_DISCONNECT_MAXIMUM : Param := ⟨63, .twoByte⟩
def PARAMETER_PROPORTIONAL_MULTIPLIER : Param := ⟨70, .twoByte⟩
def PARAMETER_PROPORTIONAL_EXPONENT : Param := ⟨72, .oneByte⟩
def PARAMETER_INTEGRAL_MULTIPLIER : Param := ⟨73, .twoByte⟩
def PARAMETER_INTEGRAL_EXPONENT : Param := ⟨75, .oneByte⟩
def PARAMETER_DERIVATIVE_MULTIPLIER : Param := ⟨76, .twoByte⟩
def PARAMETER_DERIVATIVE_EXPONENT : Param := ⟨78, .oneByte⟩
def PARAMETER_PID_PERIOD : Param := ⟨79, .twoByte⟩
def PARAMETER_PID_INTEGRAL_LIMIT : Param := ⟨81, .twoByte⟩
def PARAMETER_PID_RESET_INTEGRAL : Param := ⟨84, .oneBit⟩
def PARAMETER_MOTOR_PWM_FREQUENCY : Param := ⟨100, .oneByte⟩
def PARAMETER_MOTOR_INVERT : Param := ⟨101, .oneBit⟩
def PARAMETER_MOTOR_MAX_DUTY_CYCLE_WHILE_FEEDBACK_OUT_OF_RANGE : Param := ⟨102, .twoByte⟩
def PARAMETER_MOTOR_MAX_ACCELERATION_FORWARD : Param := ⟨104, .twoByte⟩
def PARAMETER_MOTOR_MAX_ACCELERATION_REVERSE : Param := ⟨106, .twoByte⟩
def PARAMETER_MOTOR_MAX_DUTY_CYCLE_FORWARD : Param := ⟨108, .twoByte⟩
def PARAMETER_MOTOR_MAX_DUTY_CYCLE_REVERSE : Param := ⟨110, .twoByte⟩
def PARAMETER_MOTOR_MAX_CURRENT_FORWARD : Param := ⟨112, .oneByte⟩
def PARAMETER_MOTOR_MAX_CURRENT_REVERSE : Param := ⟨113, .oneByte⟩
def PARAMETER_MOTOR_CURRENT_CALIBRATION_FORWARD : Param := ⟨114, .oneByte⟩
def PARAMETER_MOTOR_CURRENT_CALIBRATION_REVERSE : Param := ⟨115, .oneByte⟩
def PARAMETER_MOTOR_BRAKE_DURATION_FORWARD : Param := ⟨116, .oneByte⟩
def PARAMETER_MOTOR_BRAKE_DURATION_REVERSE : Param := ⟨117, .oneByte⟩
def PARAMETER_MOTOR_COAST_WHEN_OFF : Param := ⟨118, .oneBit⟩
def PARAMETER_ERROR_ENABLE : Param := ⟨130, .twoByte⟩
def PARAMETER_ERROR_LATCH : Param := ⟨132, .twoByte⟩

/-- The five parameters the EEPROM initialization assumes consecutive. -/
def consecutiveDutyBlock : List Param :=
  [PARAMETER_MOTOR_MAX_DUTY_CYCLE_WHILE_FEEDBACK_OUT_OF_RANGE,
   PARAMETER_MOTOR_MAX_ACCELERATION_FORWARD, PARAMETER_MOTOR_MAX_ACCELERATION_REVERSE,
   PARAMETER_MOTOR_MAX_DUTY_CYCLE_FORWARD, PARAMETER_MOTOR_MAX_DUTY_CYCLE_REVERSE]

/-- The first pair the EEPROM initialization assumes consecutive. -/
def consecutiveMaxCurrentPair : List Param :=
  [PARAMETER_MOTOR_MAX_CURRENT_FORWARD, PARAMETER_MOTOR_MAX_CURRENT_REVERSE]

/-- The second pair the EEPROM initialization assumes consecutive. -/
def consecutiveCurrentCalibrationPair : List Param :=
  [PARAMETER_MOTOR_CURRENT_CALIBRATION_FORWARD, PARAMETER_MOTOR_CURRENT_CALIBRATION_REVERSE]

/-- The enumerators of `jrkParameter` in declaration order. -/
def jrkParameter : List Param :=
  [PARAMETER_INPUT_MODE, PARAMETER_INPUT_MINIMUM, PARAMETER_INPUT_MAXIMUM,
   PARAMETER_OUTPUT_MINIMUM, PARAMETER_OUTPUT_NEUTRAL, PARAMETER_OUTPUT_MAXIMUM,
   PARAMETER_INPUT_INVERT, PARAMETER_INPUT_SCALING_DEGREE, PARAMETER_INPUT_POWER_WITH_AUX,
   PARAMETER_INPUT_ANALOG_SAMPLES_EXPONENT, PARAMETER_INPUT_DISCONNECT_MINIMUM,
   PARAMETER_INPUT_DISCONNECT_MAXIMUM, PARAMETER_INPUT_NEUTRAL_MAXIMUM,
   PARAMETER_INPUT_NEUTRAL_MINIMUM,
   PARAMETER_SERIAL_MODE, PARAMETER_SERIAL_FIXED_BAUD_RATE, PARAMETER_SERIAL_TIMEOUT,
   PARAMETER_SERIAL_ENABLE_CRC, PARAMETER_SERIAL_NEVER_SUSPEND,
   PARAMETER_SERIAL_DEVICE_NUMBER,
   PARAMETER_FEEDBACK_MODE, PARAMETER_FEEDBACK_MINIMUM, PARAMETER_FEEDBACK_MAXIMUM,
   PARAMETER_FEEDBACK_INVERT, PARAMETER_FEEDBACK_POWER_WITH_AUX,
   PARAMETER_FEEDBACK_DEAD_ZONE, PARAMETER_FEEDBACK_ANALOG_SAMPLES_EXPONENT,
   PARAMETER_FEEDBACK_DISCONNECT_MINIMUM, PARAMETER_FEEDBACK_DISCONNECT_MAXIMUM,
   PARAMETER_PROPORTIONAL_MULTIPLIER, PARAMETER_PROPORTIONAL_EXPONENT,
   PARAMETER_INTEGRAL_MULTIPLIER, PARAMETER_INTEGRAL_EXPONENT,
   PARAMETER_DERIVATIVE_MULTIPLIER, PARAMETER_DERIVATIVE_EXPONENT,
   PARAMETER_PID_PERIOD, PARAMETER_PID_INTEGRAL_LIMIT, PARAMETER_PID_RESET_INTEGRAL,
   PARAMETER_MOTOR_PWM_FREQUENCY, PARAMETER_MOTOR_INVERT]
  ++ consecutiveDutyBlock ++ consecutiveMaxCurrentPair ++ consecutiveCurrentCalibrationPair ++
  [PARAMETER_MOTOR_BRAKE_DURATION_FORWARD, PARAMETER_MOTOR_BRAKE_DURATION_REVERSE,
   PARAMETER_MOTOR_COAST_WHEN_OFF, PARAMETER_ERROR_ENABLE, PARAMETER_ERROR_LATCH]

end Jrk

/-! ## Maestro: `src/Maestro/protocol.h` -/

namespace Maestro

/-! ### `enum uscCommand` -/

def COMMAND_SET_TARGET : Nat := 0x84
def COMMAND_SET_SPEED : Nat := 0x87
def COMMAND_SET_ACCELERATION : Nat := 0x89
def COMMAND_GET_POSITION : Nat := 0x90
def COMMAND_GET_MOVING_STATE : Nat := 0x93
def COMMAND_GET_ERRORS : Nat := 0xA1
def COMMAND_GO_HOME : Nat := 0xA2
def COMMAND_STOP_SCRIPT : Nat := 0xA4
def COMMAND_RESTART_SCRIPT_AT_SUBROUTINE : Nat := 0xA7
def COMMAND_RESTART_SCRIPT_AT_SUBROUTINE_WITH_PARAMETER : Nat := 0xA8
def COMMAND_GET_SCRIPT_STATUS : Nat := 0xAE
def COMMAND_MINI_SSC : Nat := 0xFF

def uscCommand : List Nat :=
  [COMMAND_SET_TARGET, COMMAND_SET_SPEED, COMMAND_SET_ACCELERATION,
   COMMAND_GET_POSITION, COMMAND_GET_MOVING_STATE, COMMAND_GET_ERRORS,
   COMMAND_GO_HOME, COMMAND_STOP_SCRIPT, COMMAND_RESTART_SCRIPT_AT_SUBROUTINE,
   COMMAND_RESTART_SCRIPT_AT_SUBROUTINE_WITH_PARAMETER,
   COMMAND_GET_SCRIPT_STATUS, COMMAND_MINI_SSC]

/-! ### `enum uscRequest` -/

def REQUEST_GET_PARAMETER : Nat := 0x81
def REQUEST_SET_PARAMETER : Nat := 0x82
def REQUEST_GET_VARIABLES : Nat := 0x83
def REQUEST_SET_SERVO_VARIABLE : Nat := 0x84
def REQUEST_SET_TARGET : Nat := 0x85
def REQUEST_CLEAR_ERRORS : Nat := 0x86
def REQUEST_REINITIALIZE : Nat := 0x90
def REQUEST_ERASE_SCRIPT : Nat := 0xA0
def REQUEST_WRITE_SCRIPT : Nat := 0xA1
def REQUEST_SET_SCRIPT_DONE : Nat := 0xA2
def REQUEST_RESTART_SCRIPT_AT_SUBROUTINE : Nat := 0xA3
def REQUEST_RESTART_SCRIPT_AT_SUBROUTINE_WITH_PARAMETER : Nat := 0xA4
def REQUEST_RESTART_SCRIPT : Nat := 0xA5
def REQUEST_START_BOOTLOADER : Nat := 0xFF

def uscRequest : List Nat :=
  [REQUEST_GET_PARAMETER, REQUEST_SET_PARAMETER, REQUEST_GET_VARIABLES,
   REQUEST_SET_SERVO_VARIABLE, REQUEST_SET_TARGET, REQUEST_CLEAR_ERRORS,
   REQUEST_REINITIALIZE, REQUEST_ERASE_SCRIPT, REQUEST_WRITE_SCRIPT,
   REQUEST_SET_SCRIPT_DONE, REQUEST_RESTART_SCRIPT_AT_SUBROUTINE,
   REQUEST_RESTART_SCRIPT_AT_SUBROUTINE_WITH_PARAMETER, REQUEST_RESTART_SCRIPT,
   REQUEST_START_BOOTLOADER]

/-! ### `enum uscParameter` -/

def PARAMETER_SERVOS_AVAILABLE : Param := ⟨1, .oneByte⟩
def PARAMETER_SERVO_PERIOD : Param := ⟨2, .oneByte⟩
def PARAMETER_SERIAL_MODE : Param := ⟨3, .oneByte⟩
def PARAMETER_SERIAL_FIXED_BAUD_RATE : Param := ⟨4, .twoByte⟩
def PARAMETER_SERIAL_TIMEOUT : Param := ⟨6, .twoByte⟩
def PARAMETER_SERIAL_ENABLE_CRC : Param := ⟨8, .oneByte⟩
def PARAMETER_SERIAL_NEVER_SUSPEND : Param := ⟨9, .oneByte⟩
def PARAMETER_SERIAL_DEVICE_NUMBER : Param := ⟨10, .oneByte⟩
def PARAMETER_SERIAL_BAUD_DETECT_TYPE : Param := ⟨11, .oneByte⟩
def PARAMETER_IO_MASK_A : Param := ⟨12, .oneByte⟩
def PARAMETER_OUTPUT_MASK_A : Param := ⟨13, .oneByte⟩
def PARAMETER_IO_MASK_B : Param := ⟨14, .oneByte⟩
def PARAMETER_OUTPUT_MASK_B : Param := ⟨15, .oneByte⟩
def PARAMETER_IO_MASK_C : Param := ⟨16, .oneByte⟩
def PARAMETER_OUTPUT_MASK_C : Param := ⟨17, .oneByte⟩
def PARAMETER_IO_MASK_D : Param := ⟨18, .oneByte⟩
def PARAMETER_OUTPUT_MASK_D : Param := ⟨19, .oneByte⟩
def PARAMETER_IO_MASK_E : Param := ⟨20, .oneByte⟩
def PARAMETER_OUTPUT_MASK_E : Param := ⟨21, .oneByte⟩
def PARAMETER_SCRIPT_CRC : Param := ⟨22, .twoByte⟩
def PARAMETER_SCRIPT_DONE : Param := ⟨24, .oneByte⟩
def PARAMETER_SERIAL_MINI_SSC_OFFSET : Param := ⟨25, .oneByte⟩
def PARAMETER_SERVO0_HOME : Param := ⟨30, .twoByte⟩
def PARAMETER_SERVO0_MIN : Param := ⟨32, .oneByte⟩
def PARAMETER_SERVO0_MAX : Param := ⟨33, .oneByte⟩
def PARAMETER_SERVO0_NEUTRAL : Param := ⟨34, .twoByte⟩
def PARAMETER_SERVO0_RANGE : Param := ⟨36, .oneByte⟩
def PARAMETER_SERVO0_SPEED : Param := ⟨37, .oneByte⟩
def PARAMETER_SERVO0_ACCELERATION : Param := ⟨38, .oneByte⟩

/-- The header gives `PARAMETER_SERVO1_HOME` no width of its own; "the pattern
continues", so it is a two-byte home position like `PARAMETER_SERVO0_HOME`. -/
def PARAMETER_SERVO1_HOME : Param := ⟨39, .twoByte⟩

/-- The enumerators of `uscParameter` in declaration order. -/
def uscParameter : List Param :=
  [PARAMETER_SERVOS_AVAILABLE, PARAMETER_SERVO_PERIOD, PARAMETER_SERIAL_MODE,
   PARAMETER_SERIAL_FIXED_BAUD_RATE, PARAMETER_SERIAL_TIMEOUT,
   PARAMETER_SERIAL_ENABLE_CRC, PARAMETER_SERIAL_NEVER_SUSPEND,
   PARAMETER_SERIAL_DEVICE_NUMBER, PARAMETER_SERIAL_BAUD_DETECT_TYPE,
   PARAMETER_IO_MASK_A, PARAMETER_OUTPUT_MASK_A, PARAMETER_IO_MASK_B,
   PARAMETER_OUTPUT_MASK_B, PARAMETER_IO_MASK_C, PARAMETER_OUTPUT_MASK_C,
   PARAMETER_IO_MASK_D, PARAMETER_OUTPUT_MASK_D, PARAMETER_IO_MASK_E,
   PARAMETER_OUTPUT_MASK_E, PARAMETER_SCRIPT_CRC, PARAMETER_SCRIPT_DONE,
   PARAMETER_SERIAL_MINI_SSC_OFFSET,
   PARAMETER_SERVO0_HOME, PARAMETER_SERVO0_MIN, PARAMETER_SERVO0_MAX,
   PARAMETER_SERVO0_NEUTRAL, PARAMETER_SERVO0_RANGE, PARAMETER_SERVO0_SPEED,
   PARAMETER_SERVO0_ACCELERATION, PARAMETER_SERVO1_HOME]

/-! ### `struct servoSetting` and `struct uscVariables` -/

def servoSetting : List Member :=
  [⟨"position", .u16, none⟩,
   ⟨"target", .u16, none⟩,
   ⟨"speed", .u16, none⟩,
   ⟨"acceleration", .u8, none⟩]

/-- The header numbers the offsets of `uscVariables` from zero, in the comment
above each member. -/
def uscVariables : List Member :=
  [⟨"stackPointer", .u8, some 0⟩,
   ⟨"callStackPointer", .u8, some 1⟩,
   ⟨"errors", .u16, some 2⟩,
   ⟨"programCounter", .u16, some 4⟩,
   ⟨"buffer", .array .s16 3, some 6⟩,
   ⟨"stack", .array .s16 32, some 12⟩,
   ⟨"callStack", .array .u16 10, some 76⟩,
   ⟨"scriptDone", .u8, some 96⟩,
   ⟨"buffer2", .u8, some 97⟩,
   ⟨"servoSetting", .array (.struct (servoSetting.map Member.type)) 6, some 98⟩]

end Maestro

/-! ## Simple Motor Controller: `src/SimpleMotorController/protocol.h` -/

namespace Smc

/-! ### `enum HpmcRequest` -/

def REQUEST_GET_SETTINGS : Nat := 0x81
def REQUEST_SET_SETTINGS : Nat := 0x82
def REQUEST_GET_VARIABLES : Nat := 0x83
def REQUEST_RESET_SETTINGS : Nat := 0x84
def REQUEST_GET_RESET_FLAGS : Nat := 0x85
def REQUEST_SET_SPEED : Nat := 0x90
def REQUEST_EXIT_SAFE_START : Nat := 0x91
def REQUEST_SET_MOTOR_LIMIT : Nat := 0x92
def REQUEST_SET_USB_KILL : Nat := 0x93
def REQUEST_GET_STALL_ERROR : Nat := 0xB0
def REQUEST_START_BOOTLOADER : Nat := 0xFF

def HpmcRequest : List Nat :=
  [REQUEST_GET_SETTINGS, REQUEST_SET_SETTINGS, REQUEST_GET_VARIABLES,
   REQUEST_RESET_SETTINGS, REQUEST_GET_RESET_FLAGS, REQUEST_SET_SPEED,
   REQUEST_EXIT_SAFE_START, REQUEST_SET_MOTOR_LIMIT, REQUEST_SET_USB_KILL,
   REQUEST_GET_STALL_ERROR, REQUEST_START_BOOTLOADER]

/-! ### Serial command bytes (`#define COMMAND_*`) -/

def COMMAND_EXIT_SAFE_START : Nat := 0x83
def COMMAND_MOTOR_FORWARD : Nat := 0x85
def COMMAND_MOTOR_REVERSE : Nat := 0x86
def COMMAND_MOTOR_FORWARD_7BIT : Nat := 0x89
def COMMAND_MOTOR_REVERSE_7BIT : Nat := 0x8A
def COMMAND_VARIABLE_BRAKE : Nat := 0x92
def COMMAND_GET_VARIABLE : Nat := 0xA1
def COMMAND_SET_MOTOR_LIMIT : Nat := 0xA2
def COMMAND_GET_FIRMWARE_VERSION : Nat := 0xC2
def COMMAND_STOP_MOTOR : Nat := 0xE0
def COMMAND_MINI_SSC : Nat := 0xFF

/-- The serial command table, `COMMAND_EXIT_SAFE_START` .. `COMMAND_MINI_SSC`. -/
def commands : List Nat :=
  [COMMAND_EXIT_SAFE_START, COMMAND_MOTOR_FORWARD, COMMAND_MOTOR_REVERSE,
   COMMAND_MOTOR_FORWARD_7BIT, COMMAND_MOTOR_REVERSE_7BIT, COMMAND_VARIABLE_BRAKE,
   COMMAND_GET_VARIABLE, COMMAND_SET_MOTOR_LIMIT, COMMAND_GET_FIRMWARE_VERSION,
   COMMAND_STOP_MOTOR, COMMAND_MINI_SSC]

end Smc

/-! ## Simple Motor Controller G2: `src/SimpleMotorControllerG2/protocol.h` -/

namespace SmcG2

/-! ### `enum HpmcRequest` -/

def REQUEST_GET_SETTINGS : Nat := 0x81
def REQUEST_SET_SETTINGS : Nat := 0x82
def REQUEST_GET_VARIABLES : Nat := 0x83
def REQUEST_RESET_SETTINGS : Nat := 0x84
def REQUEST_GET_RESET_FLAGS : Nat := 0x85
def REQUEST_SET_SPEED : Nat := 0x90
def REQUEST_EXIT_SAFE_START : Nat := 0x91
def REQUEST_SET_MOTOR_LIMIT : Nat := 0x92
def REQUEST_SET_USB_KILL : Nat := 0x93
def REQUEST_SET_CURRENT_LIMIT : Nat := 0x94
def REQUEST_GET_STALL_ERROR : Nat := 0xB0
def REQUEST_START_BOOTLOADER : Nat := 0xFF

def HpmcRequest : List Nat :=
  [REQUEST_GET_SETTINGS, REQUEST_SET_SETTINGS, REQUEST_GET_VARIABLES,
   REQUEST_RESET_SETTINGS, REQUEST_GET_RESET_FLAGS, REQUEST_SET_SPEED,
   REQUEST_EXIT_SAFE_START, REQUEST_SET_MOTOR_LIMIT, REQUEST_SET_USB_KILL,
   REQUEST_SET_CURRENT_LIMIT, REQUEST_GET_STALL_ERROR, REQUEST_START_BOOTLOADER]

/-! ### Serial command bytes (`#define COMMAND_*`) -/

def COMMAND_EXIT_SAFE_START : Nat := 0x83
def COMMAND_MOTOR_FORWARD : Nat := 0x85
def COMMAND_MOTOR_REVERSE : Nat := 0x86
def COMMAND_MOTOR_FORWARD_7BIT : Nat := 0x89
def COMMAND_MOTOR_REVERSE_7BIT : Nat := 0x8A
def COMMAND_SET_CURRENT_LIMIT : Nat := 0x91
def COMMAND_MOTOR_BRAKE : Nat := 0x92
def COMMAND_GET_VARIABLE : Nat := 0xA1
def COMMAND_SET_MOTOR_LIMIT : Nat := 0xA2
def COMMAND_GET_FIRMWARE_VERSION : Nat := 0xC2
def COMMAND_STOP_MOTOR : Nat := 0xE0
def COMMAND_MINI_SSC : Nat := 0xFF

/-- The serial command table of the G2, which adds `COMMAND_SET_CURRENT_LIMIT`. -/
def commands : List Nat :=
  [COMMAND_EXIT_SAFE_START, COMMAND_MOTOR_FORWARD, COMMAND_MOTOR_REVERSE,
   COMMAND_MOTOR_FORWARD_7BIT, COMMAND_MOTOR_REVERSE_7BIT, COMMAND_SET_CURRENT_LIMIT,
   COMMAND_MOTOR_BRAKE, COMMAND_GET_VARIABLE, COMMAND_SET_MOTOR_LIMIT,
   COMMAND_GET_FIRMWARE_VERSION, COMMAND_STOP_MOTOR, COMMAND_MINI_SSC]

end SmcG2

/-- Forward byte odd, reverse byte even, hence the two differ in bit 0. -/
def oddEvenPair (forward reverse : Nat) : Prop :=
  forward % 2 = 1 ∧ reverse % 2 = 0 ∧ forward.testBit 0 ≠ reverse.testBit 0

instance (f r : Nat) : Decidable (oddEvenPair f r) := by unfold oddEvenPair; infer_instance

/-! ## Maestro: sizes the header documents, and the servo-0 parameter block -/

namespace Maestro

/-- The comment that closes `struct uscVariables`: "total length 139 bytes". -/
def uscVariablesCommentLength : Nat := 139

/-- The comment above `struct uscVariables`: "There are 12 bytes used per servo
setting". -/
def servoSettingCommentBytes : Nat := 12

/-- Number of elements of the member `servoSetting` of `uscVariables`. -/
def servoSettingCount : Nat := 6

/-- The seven parameters of servo 0, `PARAMETER_SERVO0_HOME` ..
`PARAMETER_SERVO0_ACCELERATION`, in declaration order. -/
def servo0Block : List Param :=
  [PARAMETER_SERVO0_HOME, PARAMETER_SERVO0_MIN, PARAMETER_SERVO0_MAX,
   PARAMETER_SERVO0_NEUTRAL, PARAMETER_SERVO0_RANGE, PARAMETER_SERVO0_SPEED,
   PARAMETER_SERVO0_ACCELERATION]

/-- The comment after `PARAMETER_SERVO1_HOME`: "Each servo takes 9 bytes of
configuration space". -/
def servoConfigurationBytes : Nat := 9

end Maestro

/-! ## Simple Motor Controller variables: `struct HpmcVariables` -/

/-- A member of a variables record together with the variable IDs its comment
gives, one for each half-word of the member, in the order the comment lists
them. -/
structure Variable where
  member : Member
  varIds : List Nat

/-- The members of a variables record, without the comments' variable IDs. -/
def variableMembers (vars : List Variable) : List Member := vars.map Variable.member

/-- Byte-packed offset of the member called `name`, when the record has one. -/
def offsetOf (fields : List Member) (name : String) : Option Nat :=
  match fields.findIdx? (fun f => f.name == name) with
  | some i => some (packedOffset 0 fields i)
  | none => none

namespace Smc

/-- The record is `struct __attribute__((packed, aligned(4))) HpmcMotorLimits`. -/
def HpmcMotorLimits : List Member :=
  [⟨"maxSpeed", .u16, none⟩,
   ⟨"maxAcceleration", .u16, none⟩,
   ⟨"maxDeceleration", .u16, none⟩,
   ⟨"brakeDuration", .u16, none⟩,
   ⟨"startingSpeed", .u16, none⟩,
   ⟨"RESERVED0", .u16, none⟩]

/-- The record is `struct __attribute__((packed, aligned(4))) HpmcChannelVariables`. -/
def HpmcChannelVariables : List Member :=
  [⟨"unlimitedRawValue", .u16, none⟩,
   ⟨"rawValue", .u16, none⟩,
   ⟨"scaledValue", .s16, none⟩,
   ⟨"RESERVED0", .u16, none⟩]

/-- The record is `struct __attribute__((packed, aligned(4))) HpmcVariables`.
`unsigned long timeMs` is four bytes on the controller, the low and the high
half-word of the system timer. The comment of `reverseLimits` reads
"varId 36 - 40 (45 reserved)"; the IDs are kept as written. -/
def HpmcVariables : List Variable :=
  [⟨⟨"errorStatus", .u16, none⟩, [0]⟩,
   ⟨⟨"errorOccurred", .u16, none⟩, [1]⟩,
   ⟨⟨"serialErrorOccurred", .u16, none⟩, [2]⟩,
   ⟨⟨"limitStatus", .u16, none⟩, [3]⟩,
   ⟨⟨"rc1", .struct (HpmcChannelVariables.map Member.type), none⟩, [4, 5, 6, 7]⟩,
   ⟨⟨"rc2", .struct (HpmcChannelVariables.map Member.type), none⟩, [8, 9, 10, 11]⟩,
   ⟨⟨"analog1", .struct (HpmcChannelVariables.map Member.type), none⟩, [12, 13, 14, 15]⟩,
   ⟨⟨"analog2", .struct (HpmcChannelVariables.map Member.type), none⟩, [16, 17, 18, 19]⟩,
   ⟨⟨"targetSpeed", .s16, none⟩, [20]⟩,
   ⟨⟨"speed", .s16, none⟩, [21]⟩,
   ⟨⟨"brakeAmount", .u16, none⟩, [22]⟩,
   ⟨⟨"vinMv", .u16, none⟩, [23]⟩,
   ⟨⟨"temperature", .u16, none⟩, [24]⟩,
   ⟨⟨"RESERVED0", .u16, none⟩, [25]⟩,
   ⟨⟨"rcPeriod", .u16, none⟩, [26]⟩,
   ⟨⟨"baudRateRegister", .u16, none⟩, [27]⟩,
   ⟨⟨"timeMs", .u32, none⟩, [28, 29]⟩,
   ⟨⟨"forwardLimits", .struct (HpmcMotorLimits.map Member.type), none⟩,
     [30, 31, 32, 33, 34, 35]⟩,
   ⟨⟨"reverseLimits", .struct (HpmcMotorLimits.map Member.type), none⟩,
     [36, 37, 38, 39, 40, 45]⟩]

end Smc

namespace SmcG2

/-- The record is `struct __attribute__((packed, aligned(4))) HpmcMotorLimits`. -/
def HpmcMotorLimits : List Member :=
  [⟨"maxSpeed", .u16, none⟩,
   ⟨"maxAcceleration", .u16, none⟩,
   ⟨"maxDeceleration", .u16, none⟩,
   ⟨"brakeDuration", .u16, none⟩,
   ⟨"startingSpeed", .u16, none⟩,
   ⟨"RESERVED0", .u16, none⟩]

/-- The record is `struct __attribute__((packed, aligned(4))) HpmcChannelVariables`. -/
def HpmcChannelVariables : List Member :=
  [⟨"unlimitedRawValue", .u16, none⟩,
   ⟨"rawValue", .u16, none⟩,
   ⟨"scaledValue", .s16, none⟩,
   ⟨"RESERVED0", .u16, none⟩]

/-- The record is `struct __attribute__((packed, aligned(4))) HpmcVariables` of
the G2. `unsigned long timeMs` is four bytes on the controller, the low and the
high half-word of the system timer. -/
def HpmcVariables : List Variable :=
  [⟨⟨"errorStatus", .u16, none⟩, [0]⟩,
   ⟨⟨"errorOccurred", .u16, none⟩, [1]⟩,
   ⟨⟨"serialErrorOccurred", .u16, none⟩, [2]⟩,
   ⟨⟨"limitStatus", .u16, none⟩, [3]⟩,
   ⟨⟨"rc1", .struct (HpmcChannelVariables.map Member.type), none⟩, [4, 5, 6, 7]⟩,
   ⟨⟨"rc2", .struct (HpmcChannelVariables.map Member.type), none⟩, [8, 9, 10, 11]⟩,
   ⟨⟨"analog1", .struct (HpmcChannelVariables.map Member.type), none⟩, [12, 13, 14, 15]⟩,
   ⟨⟨"analog2", .struct (HpmcChannelVariables.map Member.type), none⟩, [16, 17, 18, 19]⟩,
   ⟨⟨"targetSpeed", .s16, none⟩, [20]⟩,
   ⟨⟨"speed", .s16, none⟩, [21]⟩,
   ⟨⟨"brakeAmount", .u16, none⟩, [22]⟩,
   ⟨⟨"vinMv", .u16, none⟩, [23]⟩,
   ⟨⟨"temperatureA", .u16, none⟩, [24]⟩,
   ⟨⟨"temperatureB", .u16, none⟩, [25]⟩,
   ⟨⟨"rcPeriod", .u16, none⟩, [26]⟩,
   ⟨⟨"baudRateRegister", .u16, none⟩, [27]⟩,
   ⟨⟨"timeMs", .u32, none⟩, [28, 29]⟩,
   ⟨⟨"forwardLimits", .struct (HpmcMotorLimits.map Member.type), none⟩,
     [30, 31, 32, 33, 34, 35]⟩,
   ⟨⟨"reverseLimits", .struct (HpmcMotorLimits.map Member.type), none⟩,
     [36, 37, 38, 39, 40, 41]⟩,
   ⟨⟨"currentLimit", .u16, none⟩, [42]⟩,
   ⟨⟨"rawCurrent", .u16, none⟩, [43]⟩,
   ⟨⟨"current", .u16, none⟩, [44]⟩,
   ⟨⟨"currentLimitingConsecutiveCount", .u16, none⟩, [45]⟩,
   ⟨⟨"currentLimitingOccurrenceCount", .u16, none⟩, [46]⟩]

end SmcG2

/-- Every member whose comment gives a variable ID `k` (the first ID, for a
member of several half-words) lies at byte offset `2 * k`, and the IDs the
comment gives are as many as the member has half-words. -/
def varIdsMatchOffsets (vars : List Variable) : Prop :=
  ∀ i (hi : i < vars.length),
    ((vars.get ⟨i, hi⟩).varIds.head?).map (2 * ·) =
      some (packedOffset 0 (variableMembers vars) i) ∧
    (vars.get ⟨i, hi⟩).member.size = 2 * (vars.get ⟨i, hi⟩).varIds.length

instance (vars : List Variable) : Decidable (varIdsMatchOffsets vars) := by
  unfold varIdsMatchOffsets; infer_instance

/-- Every variable ID `k` the comment of a member gives lies at byte offset
`2 * k`: the ID the comment gives for half-word number `j` of member number `i`
is half the byte offset of that half-word, the member's packed offset plus
`2 * j`. -/
def varIdsMatchHalfWords (vars : List Variable) : Prop :=
  ∀ i (hi : i < vars.length), ∀ j (hj : j < (vars.get ⟨i, hi⟩).varIds.length),
    2 * (vars.get ⟨i, hi⟩).varIds.get ⟨j, hj⟩ =
      packedOffset 0 (variableMembers vars) i + 2 * j

instance (vars : List Variable) : Decidable (varIdsMatchHalfWords vars) := by
  unfold varIdsMatchHalfWords; infer_instance

/-- The four members the get-variables command loads from shadow registers lie
at byte offsets 0, 2, 4 and 54. -/
def shadowRegisterOffsets (vars : List Variable) : Prop :=
  offsetOf (variableMembers vars) "errorStatus" = some 0 ∧
  offsetOf (variableMembers vars) "errorOccurred" = some 2 ∧
  offsetOf (variableMembers vars) "serialErrorOccurred" = some 4 ∧
  offsetOf (variableMembers vars) "baudRateRegister" = some 54

instance (vars : List Variable) : Decidable (shadowRegisterOffsets vars) := by
  unfold shadowRegisterOffsets; infer_instance

/-! ## Jrk errors: `ERROR_*`, `struct errorBits` and the two masks -/

/-- The C cast `(unsigned short)x`. -/
def toUnsignedShort (x : Nat) : Nat := x % 2 ^ 16

/-- A bit-field declarator `unsigned name : width`. -/
structure BitField where
  name : String
  width : Nat

/-- Bit number at which bit-field number `i` of a record starts, the fields
being allocated from bit 0 upward in declaration order. -/
def bitPosition (fields : List BitField) (i : Nat) : Nat :=
  ((fields.take i).map BitField.width).sum

/-- Bit number at which the bit-field called `name` starts, when the record has one. -/
def bitPositionOf (fields : List BitField) (name : String) : Option Nat :=
  match fields.findIdx? (fun f => f.name == name) with
  | some i => some (bitPosition fields i)
  | none => none

namespace Jrk

def ERROR_AWAITING_COMMAND : Nat := 0
def ERROR_NO_POWER : Nat := 1
def ERROR_MOTOR_DRIVER : Nat := 2
def ERROR_INPUT_INVALID : Nat := 3
def ERROR_INPUT_DISCONNECT : Nat := 4
def ERROR_FEEDBACK_DISCONNECT : Nat := 5
def ERROR_MAXIMUM_CURRENT_EXCEEDED : Nat := 6
def ERROR_SERIAL_SIGNAL : Nat := 7
def ERROR_SERIAL_OVERRUN : Nat := 8
def ERROR_SERIAL_BUFFER_FULL : Nat := 9
def ERROR_SERIAL_CRC : Nat := 10
def ERROR_SERIAL_PROTOCOL : Nat := 11
def ERROR_SERIAL_TIMEOUT : Nat := 12

/-- What the comment after an `ERROR_*` definition documents about the error. -/
structure ErrorDoc where
  bit : Nat
  alwaysEnabled : Bool
  neverLatched : Bool
  alwaysLatched : Bool

/-- The `ERROR_*` definitions with their comments, in declaration order. -/
def errors : List ErrorDoc :=
  [⟨ERROR_AWAITING_COMMAND, true, true, false⟩,
   ⟨ERROR_NO_POWER, true, false, false⟩,
   ⟨ERROR_MOTOR_DRIVER, true, false, false⟩,
   ⟨ERROR_INPUT_INVALID, true, false, false⟩,
   ⟨ERROR_INPUT_DISCONNECT, false, false, false⟩,
   ⟨ERROR_FEEDBACK_DISCONNECT, false, false, false⟩,
   ⟨ERROR_MAXIMUM_CURRENT_EXCEEDED, false, false, false⟩,
   ⟨ERROR_SERIAL_SIGNAL, false, false, true⟩,
   ⟨ERROR_SERIAL_OVERRUN, false, false, true⟩,
   ⟨ERROR_SERIAL_BUFFER_FULL, false, false, true⟩,
   ⟨ERROR_SERIAL_CRC, false, false, true⟩,
   ⟨ERROR_SERIAL_PROTOCOL, false, false, true⟩,
   ⟨ERROR_SERIAL_TIMEOUT, false, false, true⟩]

/-- The record `struct errorBits`, which "provides direct access to the bits". -/
def errorBits : List BitField :=
  [⟨"awaitingCommand", 1⟩,
   ⟨"noPower", 1⟩,
   ⟨"motorDriver", 1⟩,
   ⟨"inputInvalid", 1⟩,
   ⟨"inputDisconnect", 1⟩,
   ⟨"feedbackDisconnect", 1⟩,
   ⟨"maximumCurrentExceeded", 1⟩,
   ⟨"serialSignal", 1⟩,
   ⟨"serialCRC", 1⟩,
   ⟨"serialProtocol", 1⟩,
   ⟨"serialTimeout", 1⟩]

/-- The `ERROR_*` constant of the same name as each bit-field of `errorBits`. -/
def errorBitsConstants : List (String × Nat) :=
  [("awaitingCommand", ERROR_AWAITING_COMMAND),
   ("noPower", ERROR_NO_POWER),
   ("motorDriver", ERROR_MOTOR_DRIVER),
   ("inputInvalid", ERROR_INPUT_INVALID),
   ("inputDisconnect", ERROR_INPUT_DISCONNECT),
   ("feedbackDisconnect", ERROR_FEEDBACK_DISCONNECT),
   ("maximumCurrentExceeded", ERROR_MAXIMUM_CURRENT_EXCEEDED),
   ("serialSignal", ERROR_SERIAL_SIGNAL),
   ("serialCRC", ERROR_SERIAL_CRC),
   ("serialProtocol", ERROR_SERIAL_PROTOCOL),
   ("serialTimeout", ERROR_SERIAL_TIMEOUT)]

def ERRORS_ALWAYS_ENABLED : Nat :=
  (toUnsignedShort 1 <<< ERROR_AWAITING_COMMAND) ||| (toUnsignedShort 1 <<< ERROR_NO_POWER) |||
  (toUnsignedShort 1 <<< ERROR_MOTOR_DRIVER) ||| (toUnsignedShort 1 <<< ERROR_INPUT_INVALID)

def ERRORS_ALWAYS_LATCHED : Nat :=
  (toUnsignedShort 1 <<< ERROR_AWAITING_COMMAND) ||| (toUnsignedShort 1 <<< ERROR_SERIAL_SIGNAL) |||
  (toUnsignedShort 1 <<< ERROR_SERIAL_CRC) ||| (toUnsignedShort 1 <<< ERROR_SERIAL_PROTOCOL) |||
  (toUnsignedShort 1 <<< ERROR_SERIAL_TIMEOUT) ||| (toUnsignedShort 1 <<< ERROR_SERIAL_BUFFER_FULL)

end Jrk

/-! ## Error/Status Interpreter (spec §4.5) -/

/-- Modelled from the spec: the ErrorBitPolicy of §3, the always-enabled and the
always-latched bits of a profile as two 16-bit masks. The headers give the masks
of the Jrk (`ERRORS_ALWAYS_ENABLED`, `ERRORS_ALWAYS_LATCHED`) and no interpreter. -/
structure ErrorBitPolicy where
  alwaysEnabled : Nat
  alwaysLatched : Nat

/-- Modelled from the spec: §4.5, effective "enabled" of a bit position is
`policy.alwaysEnabled[bit] OR enableConfig[bit]`; the interpreter is not in the
headers. -/
def effectiveEnabled (policy : ErrorBitPolicy) (enableConfig bit : Nat) : Bool :=
  policy.alwaysEnabled.testBit bit || enableConfig.testBit bit

/-- Modelled from the spec: §4.5, effective "latched" of a bit position is
`policy.alwaysLatched[bit] OR latchConfig[bit]`; the interpreter is not in the
headers. -/
def effectiveLatched (policy : ErrorBitPolicy) (latchConfig bit : Nat) : Bool :=
  policy.alwaysLatched.testBit bit || latchConfig.testBit bit

/-- Modelled from the spec: §4.5, a bit is reported as an active error when it
is set in `rawBits` and effectively enabled; the interpreter is not in the
headers. -/
def reportedActive (policy : ErrorBitPolicy) (rawBits enableConfig bit : Nat) : Bool :=
  rawBits.testBit bit && effectiveEnabled policy enableConfig bit

/-- Modelled from the spec: an error condition of §4.5, named by its bit
position and tagged active and latched. -/
structure ErrorCondition where
  bit : Nat
  active : Bool
  latched : Bool
  deriving DecidableEq

/-- Modelled from the spec: `interpret(rawBits, enableConfig, latchConfig,
policy)` of §4.5, which the headers do not contain: for each of the 16 bit
positions set in `rawBits`, the condition with its two tags. -/
def interpret (rawBits enableConfig latchConfig : Nat) (policy : ErrorBitPolicy) :
    List ErrorCondition :=
  ((List.range 16).filter (fun bit => rawBits.testBit bit)).map
    (fun bit => ⟨bit, reportedActive policy rawBits enableConfig bit,
                 effectiveLatched policy latchConfig bit⟩)

/-- Modelled from the spec: the set of active errors that `interpret` reports,
as the list of their bit positions in increasing order. -/
def activeErrors (rawBits enableConfig latchConfig : Nat) (policy : ErrorBitPolicy) :
    List Nat :=
  ((interpret rawBits enableConfig latchConfig policy).filter ErrorCondition.active).map
    ErrorCondition.bit

namespace Jrk

/-- The error-bit policy of the Jrk, from the two masks of the header. -/
def errorBitPolicy : ErrorBitPolicy := ⟨ERRORS_ALWAYS_ENABLED, ERRORS_ALWAYS_LATCHED⟩

end Jrk

/-! ## Parameter codec (spec §4.2) -/

/-- Modelled from the spec: the failures of the parameter codec in the taxonomy
of §7. §4.2 has `decodeParameterRead` validate that the byte count matches the
descriptor width and names `InsufficientData` for a shorter buffer; for a longer
one it names no error, which is `byteCountMismatch` here. -/
inductive CodecError where
  | unknownParameter
  | valueOutOfRange
  | insufficientData
  | byteCountMismatch
  deriving DecidableEq

/-- Modelled from the spec: the ParameterDescriptor of §3: name, byte offset and
width (the header's `Param`, width 1, 8 or 16 bits), signedness, valid range and
the "init parameter" flag. The codec is not in the headers. -/
structure ParameterDescriptor where
  name : String
  param : Param
  signed : Bool
  min : Int
  max : Int
  initParameter : Bool
  deriving DecidableEq

/-- Modelled from the spec: the width in bits of a descriptor (§3), 1, 8 or 16,
for the three kinds of width the headers document. -/
def ParamKind.bits : ParamKind → Nat
  | .oneBit => 1
  | .oneByte => 8
  | .twoByte => 16

/-- Modelled from the spec: the value is within the descriptor's width and
signedness (§4.2, "validates value against width/range/signedness"). -/
def ParameterDescriptor.fitsWidth (d : ParameterDescriptor) (value : Int) : Prop :=
  if d.signed then -(2 : Int) ^ (d.param.kind.bits - 1) ≤ value ∧
      value < (2 : Int) ^ (d.param.kind.bits - 1)
  else 0 ≤ value ∧ value < (2 : Int) ^ d.param.kind.bits

instance (d : ParameterDescriptor) (value : Int) : Decidable (d.fitsWidth value) := by
  unfold ParameterDescriptor.fitsWidth; infer_instance

/-- Modelled from the spec: the value is within the descriptor's documented
range and width. -/
def ParameterDescriptor.valid (d : ParameterDescriptor) (value : Int) : Prop :=
  d.min ≤ value ∧ value ≤ d.max ∧ d.fitsWidth value

instance (d : ParameterDescriptor) (value : Int) : Decidable (d.valid value) := by
  unfold ParameterDescriptor.valid; infer_instance

/-- Modelled from the spec: the little-endian serialization of §4.2, which the
headers do not contain: the `count` low bytes of `n`, least significant first. -/
def toLittleEndian (n : Nat) : Nat → List Nat
  | 0 => []
  | count + 1 => n % 256 :: toLittleEndian (n / 256) count

/-- Modelled from the spec: the inverse little-endian read of §4.2, which the
headers do not contain: the number whose bytes are given, least significant
first. -/
def fromLittleEndian : List Nat → Nat
  | [] => 0
  | b :: bs => b + 256 * fromLittleEndian bs

/-- Modelled from the spec: the unsigned number stored for a value in the
parameter's bytes (§4.2, signedness): the value itself, or its two's complement
when it is negative. -/
def ParameterDescriptor.toStorage (d : ParameterDescriptor) (value : Int) : Nat :=
  (value % (2 : Int) ^ (8 * d.param.width)).toNat

/-- Modelled from the spec: the value a stored unsigned number stands for (§4.2,
signedness): itself, or when the descriptor is signed and the top bit is set,
the negative number of which it is the two's complement. -/
def ParameterDescriptor.fromStorage (d : ParameterDescriptor) (stored : Nat) : Int :=
  if d.signed ∧ 2 ^ (8 * d.param.width - 1) ≤ stored then
    (stored : Int) - (2 : Int) ^ (8 * d.param.width)
  else (stored : Int)

/-- Modelled from the spec: the result of `encodeParameterWrite` (§4.2): the
request payload, which is the parameter id and the value bytes, and the
`requiresReinitialize` flag the codec exposes for an init parameter. -/
structure ParameterWrite where
  parameterId : Nat
  valueBytes : List Nat
  requiresReinitialize : Bool
  deriving DecidableEq

/-- Modelled from the spec: the descriptor of the named parameter in a
profile's table, `UnknownParameter` when the name is not in the profile. -/
def lookupParameter (table : List ParameterDescriptor) (name : String) :
    Except CodecError ParameterDescriptor :=
  match table.find? (fun d => d.name == name) with
  | some d => .ok d
  | none => .error .unknownParameter

/-- Modelled from the spec: `encodeParameterWrite(name, value)` of §4.2, which
the headers do not contain: looks up the descriptor, validates the value against
width, range and signedness, and serializes it little-endian. -/
def encodeParameterWrite (table : List ParameterDescriptor) (name : String) (value : Int) :
    Except CodecError ParameterWrite :=
  match lookupParameter table name with
  | .error e => .error e
  | .ok d =>
    if d.valid value then
      .ok ⟨d.param.id, toLittleEndian (d.toStorage value) d.param.width, d.initParameter⟩
    else .error .valueOutOfRange

/-- Modelled from the spec: `decodeParameterRead(name, bytes)` of §4.2, which
the headers do not contain: the inverse of the serialization, after validating
that the byte count matches the descriptor width. -/
def decodeParameterRead (table : List ParameterDescriptor) (name : String)
    (bytes : List Nat) : Except CodecError Int :=
  match lookupParameter table name with
  | .error e => .error e
  | .ok d =>
    if bytes.length < d.param.width then .error .insufficientData
    else if d.param.width < bytes.length then .error .byteCountMismatch
    else .ok (d.fromStorage (fromLittleEndian bytes))

/-- Modelled from the spec: the round trip of §8, the value bytes that
`encodeParameterWrite` produces handed to `decodeParameterRead`. -/
def parameterRoundTrip (table : List ParameterDescriptor) (name : String) (value : Int) :
    Except CodecError Int :=
  match encodeParameterWrite table name value with
  | .error e => .error e
  | .ok w => decodeParameterRead table name w.valueBytes

namespace Jrk

/-! ### Values of the mode parameters (`enum jrkInputMode`, `enum serialMode`,
`enum jrkFeedbackMode`, `enum jrkMotorPWMFrequency`) -/

def INPUT_MODE_SERIAL : Nat := 0
def INPUT_MODE_ANALOG : Nat := 1
def INPUT_MODE_PULSE_WIDTH : Nat := 2
def SERIAL_MODE_USB_DUAL_PORT : Nat := 0
def SERIAL_MODE_USB_CHAINED : Nat := 1
def SERIAL_MODE_UART_DETECT_BAUD_RATE : Nat := 2
def SERIAL_MODE_UART_FIXED_BAUD_RATE : Nat := 3
def FEEDBACK_MODE_NONE : Nat := 0
def FEEDBACK_MODE_ANALOG : Nat := 1
def FEEDBACK_MODE_TACHOMETER : Nat := 2
def MOTOR_PWM_FREQUENCY_20 : Nat := 0
def MOTOR_PWM_FREQUENCY_5 : Nat := 1

/-- The descriptors of the Jrk parameters, read off the comments of
`enum jrkParameter`: every parameter is unsigned; the range is the one the
comment gives ("(0-4095)", "0-8", "(1-600)", ...), the enumerators of the mode
for a parameter whose valid values are an enumeration, 0 to 1 for a one-bit
boolean, and the whole width where the comment gives none; the last field says
whether the comment marks an "Init parameter". -/
def parameterTable : List ParameterDescriptor :=
  [⟨"PARAMETER_INPUT_MODE", PARAMETER_INPUT_MODE,
     false, 0, INPUT_MODE_PULSE_WIDTH, true⟩,
   ⟨"PARAMETER_INPUT_MINIMUM", PARAMETER_INPUT_MINIMUM,
     false, 0, 4095, false⟩,
   ⟨"PARAMETER_INPUT_MAXIMUM", PARAMETER_INPUT_MAXIMUM,
     false, 0, 4095, false⟩,
   ⟨"PARAMETER_OUTPUT_MINIMUM", PARAMETER_OUTPUT_MINIMUM,
     false, 0, 4095, false⟩,
   ⟨"PARAMETER_OUTPUT_NEUTRAL", PARAMETER_OUTPUT_NEUTRAL,
     false, 0, 4095, false⟩,
   ⟨"PARAMETER_OUTPUT_MAXIMUM", PARAMETER_OUTPUT_MAXIMUM,
     false, 0, 4095, false⟩,
   ⟨"PARAMETER_INPUT_INVERT", PARAMETER_INPUT_INVERT,
     false, 0, 1, false⟩,
   ⟨"PARAMETER_INPUT_SCALING_DEGREE", PARAMETER_INPUT_SCALING_DEGREE,
     false, 0, 1, false⟩,
   ⟨"PARAMETER_INPUT_POWER_WITH_AUX", PARAMETER_INPUT_POWER_WITH_AUX,
     false, 0, 1, false⟩,
   ⟨"PARAMETER_INPUT_ANALOG_SAMPLES_EXPONENT", PARAMETER_INPUT_ANALOG_SAMPLES_EXPONENT,
     false, 0, 8, false⟩,
   ⟨"PARAMETER_INPUT_DISCONNECT_MINIMUM", PARAMETER_INPUT_DISCONNECT_MINIMUM,
     false, 0, 4095, false⟩,
   ⟨"PARAMETER_INPUT_DISCONNECT_MAXIMUM", PARAMETER_INPUT_DISCONNECT_MAXIMUM,
     false, 0, 4095, false⟩,
   ⟨"PARAMETER_INPUT_NEUTRAL_MAXIMUM", PARAMETER_INPUT_NEUTRAL_MAXIMUM,
     false, 0, 4095, false⟩,
   ⟨"PARAMETER_INPUT_NEUTRAL_MINIMUM", PARAMETER_INPUT_NEUTRAL_MINIMUM,
     false, 0, 4095, false⟩,
   ⟨"PARAMETER_SERIAL_MODE", PARAMETER_SERIAL_MODE,
     false, 0, SERIAL_MODE_UART_FIXED_BAUD_RATE, true⟩,
   ⟨"PARAMETER_SERIAL_FIXED_BAUD_RATE", PARAMETER_SERIAL_FIXED_BAUD_RATE,
     false, 0, 65535, true⟩,
   ⟨"PARAMETER_SERIAL_TIMEOUT", PARAMETER_SERIAL_TIMEOUT,
     false, 0, 65535, false⟩,
   ⟨"PARAMETER_SERIAL_ENABLE_CRC", PARAMETER_SERIAL_ENABLE_CRC,
     false, 0, 1, false⟩,
   ⟨"PARAMETER_SERIAL_NEVER_SUSPEND", PARAMETER_SERIAL_NEVER_SUSPEND,
     false, 0, 1, false⟩,
   ⟨"PARAMETER_SERIAL_DEVICE_NUMBER", PARAMETER_SERIAL_DEVICE_NUMBER,
     false, 0, 127, false⟩,
   ⟨"PARAMETER_FEEDBACK_MODE", PARAMETER_FEEDBACK_MODE,
     false, 0, FEEDBACK_MODE_TACHOMETER, true⟩,
   ⟨"PARAMETER_FEEDBACK_MINIMUM", PARAMETER_FEEDBACK_MINIMUM,
     false, 0, 65535, false⟩,
   ⟨"PARAMETER_FEEDBACK_MAXIMUM", PARAMETER_FEEDBACK_MAXIMUM,
     false, 0, 65535, false⟩,
   ⟨"PARAMETER_FEEDBACK_INVERT", PARAMETER_FEEDBACK_INVERT,
     false, 0, 1, false⟩,
   ⟨"PARAMETER_FEEDBACK_POWER_WITH_AUX", PARAMETER_FEEDBACK_POWER_WITH_AUX,
     false, 0, 1, false⟩,
   ⟨"PARAMETER_FEEDBACK_DEAD_ZONE", PARAMETER_FEEDBACK_DEAD_ZONE,
     false, 0, 255, false⟩,
   ⟨"PARAMETER_FEEDBACK_ANALOG_SAMPLES_EXPONENT", PARAMETER_FEEDBACK_ANALOG_SAMPLES_EXPONENT,
     false, 0, 8, false⟩,
   ⟨"PARAMETER_FEEDBACK_DISCONNECT_MINIMUM", PARAMETER_FEEDBACK_DISCONNECT_MINIMUM,
     false, 0, 4095, false⟩,
   ⟨"PARAMETER_FEEDBACK_DISCONNECT_MAXIMUM", PARAMETER_FEEDBACK_DISCONNECT_MAXIMUM,
     false, 0, 4095, false⟩,
   ⟨"PARAMETER_PROPORTIONAL_MULTIPLIER", PARAMETER_PROPORTIONAL_MULTIPLIER,
     false, 0, 1023, false⟩,
   ⟨"PARAMETER_PROPORTIONAL_EXPONENT", PARAMETER_PROPORTIONAL_EXPONENT,
     false, 0, 15, false⟩,
   ⟨"PARAMETER_INTEGRAL_MULTIPLIER", PARAMETER_INTEGRAL_MULTIPLIER,
     false, 0, 1023, false⟩,
   ⟨"PARAMETER_INTEGRAL_EXPONENT", PARAMETER_INTEGRAL_EXPONENT,
     false, 0, 15, false⟩,
   ⟨"PARAMETER_DERIVATIVE_MULTIPLIER", PARAMETER_DERIVATIVE_MULTIPLIER,
     false, 0, 1023, false⟩,
   ⟨"PARAMETER_DERIVATIVE_EXPONENT", PARAMETER_DERIVATIVE_EXPONENT,
     false, 0, 15, false⟩,
   ⟨"PARAMETER_PID_PERIOD", PARAMETER_PID_PERIOD,
     false, 0, 65535, false⟩,
   ⟨"PARAMETER_PID_INTEGRAL_LIMIT", PARAMETER_PID_INTEGRAL_LIMIT,
     false, 0, 65535, false⟩,
   ⟨"PARAMETER_PID_RESET_INTEGRAL", PARAMETER_PID_RESET_INTEGRAL,
     false, 0, 1, false⟩,
   ⟨"PARAMETER_MOTOR_PWM_FREQUENCY", PARAMETER_MOTOR_PWM_FREQUENCY,
     false, 0, MOTOR_PWM_FREQUENCY_5, true⟩,
   ⟨"PARAMETER_MOTOR_INVERT", PARAMETER_MOTOR_INVERT,
     false, 0, 1, false⟩,
   ⟨"PARAMETER_MOTOR_MAX_DUTY_CYCLE_WHILE_FEEDBACK_OUT_OF_RANGE", PARAMETER_MOTOR_MAX_DUTY_CYCLE_WHILE_FEEDBACK_OUT_OF_RANGE,
     false, 0, 600, false⟩,
   ⟨"PARAMETER_MOTOR_MAX_ACCELERATION_FORWARD", PARAMETER_MOTOR_MAX_ACCELERATION_FORWARD,
     false, 1, 600, false⟩,
   ⟨"PARAMETER_MOTOR_MAX_ACCELERATION_REVERSE", PARAMETER_MOTOR_MAX_ACCELERATION_REVERSE,
     false, 1, 600, false⟩,
   ⟨"PARAMETER_MOTOR_MAX_DUTY_CYCLE_FORWARD", PARAMETER_MOTOR_MAX_DUTY_CYCLE_FORWARD,
     false, 0, 600, false⟩,
   ⟨"PARAMETER_MOTOR_MAX_DUTY_CYCLE_REVERSE", PARAMETER_MOTOR_MAX_DUTY_CYCLE_REVERSE,
     false, 0, 600, false⟩,
   ⟨"PARAMETER_MOTOR_MAX_CURRENT_FORWARD", PARAMETER_MOTOR_MAX_CURRENT_FORWARD,
     false, 0, 255, false⟩,
   ⟨"PARAMETER_MOTOR_MAX_CURRENT_REVERSE", PARAMETER_MOTOR_MAX_CURRENT_REVERSE,
     false, 0, 255, false⟩,
   ⟨"PARAMETER_MOTOR_CURRENT_CALIBRATION_FORWARD", PARAMETER_MOTOR_CURRENT_CALIBRATION_FORWARD,
     false, 0, 255, false⟩,
   ⟨"PARAMETER_MOTOR_CURRENT_CALIBRATION_REVERSE", PARAMETER_MOTOR_CURRENT_CALIBRATION_REVERSE,
     false, 0, 255, false⟩,
   ⟨"PARAMETER_MOTOR_BRAKE_DURATION_FORWARD", PARAMETER_MOTOR_BRAKE_DURATION_FORWARD,
     false, 0, 255, false⟩,
   ⟨"PARAMETER_MOTOR_BRAKE_DURATION_REVERSE", PARAMETER_MOTOR_BRAKE_DURATION_REVERSE,
     false, 0, 255, false⟩,
   ⟨"PARAMETER_MOTOR_COAST_WHEN_OFF", PARAMETER_MOTOR_COAST_WHEN_OFF,
     false, 0, 1, false⟩,
   ⟨"PARAMETER_ERROR_ENABLE", PARAMETER_ERROR_ENABLE,
     false, 0, 65535, false⟩,
   ⟨"PARAMETER_ERROR_LATCH", PARAMETER_ERROR_LATCH,
     false, 0, 65535, false⟩]

end Jrk

/-! ## Simple Motor Controller G2: the bit-field block of `struct HpmcSettings` -/

namespace SmcG2

/-- The anonymous struct of bit-fields that opens `struct HpmcSettings`. -/
def HpmcSettingsBitFields : List BitField :=
  [⟨"neverSleep", 1⟩,
   ⟨"uartResponseDelay", 1⟩,
   ⟨"useFixedBaudRate", 1⟩,
   ⟨"disableSafeStart", 1⟩,
   ⟨"enableI2C", 1⟩,
   ⟨"ignoreErrLineHigh", 1⟩,
   ⟨"tempLimitGradual", 1⟩,
   ⟨"ignorePotDisconnect", 1⟩,
   ⟨"motorInvert", 1⟩,
   ⟨"coastWhenOff", 1⟩,
   ⟨"crcForCommands", 1⟩,
   ⟨"crcForResponses", 1⟩,
   ⟨"reservedBits", 20⟩]

end SmcG2

/-- The bit ranges `(first bit, width)` of the bit-fields of a record, allocated
from bit 0 upward in declaration order. -/
def bitRanges (fields : List BitField) : List (Nat × Nat) :=
  (List.range fields.length).map
    (fun i => (bitPosition fields i, (fields.map BitField.width).getD i 0))

/-- Two bit ranges `[first, first + width)` have no bit in common. -/
def rangesDisjoint (a b : Nat × Nat) : Prop := a.1 + a.2 ≤ b.1 ∨ b.1 + b.2 ≤ a.1

instance (a b : Nat × Nat) : Decidable (rangesDisjoint a b) := by
  unfold rangesDisjoint; infer_instance

/-! ## BitField Codec (spec §4.1) -/

/-- Modelled from the spec: the failure of the BitField Codec (§4.1),
`RangeError`; the codec is not in the headers. -/
inductive BitFieldError where
  | rangeError
  deriving DecidableEq

/-- Modelled from the spec: one entry of the layout `unpackBits` takes (§4.1),
the bit offset and the bit width of a field. -/
structure FieldLayout where
  bitOffset : Nat
  bitWidth : Nat
  deriving DecidableEq

/-- Modelled from the spec: one entry `(bitOffset, bitWidth, value)` of the
ordered list `packBits` takes (§4.1). -/
structure PackedField where
  bitOffset : Nat
  bitWidth : Nat
  value : Nat
  deriving DecidableEq

/-- The layout entry of a field handed to `packBits`. -/
def PackedField.layout (f : PackedField) : FieldLayout := ⟨f.bitOffset, f.bitWidth⟩

/-- Modelled from the spec: two field layouts do not overlap (§4.1): the bits
`[bitOffset, bitOffset + bitWidth)` of one lie wholly before those of the other. -/
def FieldLayout.disjoint (a b : FieldLayout) : Prop :=
  a.bitOffset + a.bitWidth ≤ b.bitOffset ∨ b.bitOffset + b.bitWidth ≤ a.bitOffset

instance (a b : FieldLayout) : Decidable (a.disjoint b) := by
  unfold FieldLayout.disjoint; infer_instance

/-- Modelled from the spec: the layouts the codec accepts (§4.1): the total of
the bit widths does not exceed the 8 bits of a storage byte and no two fields
overlap. -/
def layoutAccepted (layout : List FieldLayout) : Prop :=
  (layout.map FieldLayout.bitWidth).sum ≤ 8 ∧ layout.Pairwise FieldLayout.disjoint

instance (layout : List FieldLayout) : Decidable (layoutAccepted layout) := by
  unfold layoutAccepted; infer_instance

/-- The values of the fields, each shifted to its bit offset, OR-ed together. -/
def combineFields : List PackedField → Nat
  | [] => 0
  | f :: fs => (f.value <<< f.bitOffset) ||| combineFields fs

/-- Modelled from the spec: `packBits(fields)` of §4.1, which the headers do not
contain: fails with `RangeError` if a value exceeds its bit width, if the total
bits exceed 8 or if two fields overlap; otherwise gives the storage byte. -/
def packBits (fields : List PackedField) : Except BitFieldError Nat :=
  if (∀ f ∈ fields, f.value < 2 ^ f.bitWidth) ∧
      layoutAccepted (fields.map PackedField.layout) then
    .ok (combineFields fields % 256)
  else .error .rangeError

/-- Modelled from the spec: `unpackBits(byte, layout)` of §4.1, which the
headers do not contain: the inverse of `packBits`, the value of every field of
the layout read out of the storage byte. -/
def unpackBits (byte : Nat) (layout : List FieldLayout) : Except BitFieldError (List Nat) :=
  if layoutAccepted layout then
    .ok (layout.map (fun l => (byte >>> l.bitOffset) % 2 ^ l.bitWidth))
  else .error .rangeError

/-- The layout in one storage byte of the bit-fields of a record that start
below bit 8, as `unpackBits` takes it. -/
def storageByteLayout (fields : List BitField) : List FieldLayout :=
  ((bitRanges fields).filter (fun r => r.1 < 8)).map (fun r => ⟨r.1, r.2⟩)

/-- The fields `packBits` takes for a layout and a list of values, one value for
each entry of the layout. -/
def withValues (layout : List FieldLayout) (values : List Nat) : List PackedField :=
  List.zipWith (fun l v => ⟨l.bitOffset, l.bitWidth, v⟩) layout values

/-! ## The example programs: `MaestroEasyExampleCpp/MainWindow.h` and
`SmcExample1Cpp/MainWindow.h` -/

/-- A .NET exception as the examples read it: its `Message`, its
`NativeErrorCode` when its type is exactly `Win32Exception` (`none` for any
other type), and its `InnerException`. `last` is an exception whose
`InnerException` is `nullptr`; `wrap` is one that has an inner exception. -/
inductive Exception where
  | last (Message : String) (NativeErrorCode : Option Int)
  | wrap (Message : String) (NativeErrorCode : Option Int) (InnerException : Exception)
  deriving DecidableEq

/-- The property `exception->Message`. -/
def Exception.Message : Exception → String
  | .last m _ => m
  | .wrap m _ _ => m

/-- The property `NativeErrorCode` of a `Win32Exception`; `none` when the test
`exception->GetType() == Win32Exception::typeid` fails. -/
def Exception.NativeErrorCode : Exception → Option Int
  | .last _ c => c
  | .wrap _ c _ => c

/-- The property `exception->InnerException`, `none` for `nullptr`. -/
def Exception.InnerException : Exception → Option Exception
  | .last _ _ => none
  | .wrap _ _ inner => some inner

/-- The exceptions linked by `InnerException`, outermost first. -/
def Exception.chain : Exception → List Exception
  | .last m c => [.last m c]
  | .wrap m c inner => .wrap m c inner :: inner.chain

/-- The number of `InnerException` links of a chain: `n` for a chain e0 .. en. -/
def Exception.innerCount : Exception → Nat
  | .last _ _ => 0
  | .wrap _ _ inner => inner.innerCount + 1

/-- `NativeErrorCode.ToString("x")`: the lowercase hexadecimal digits of the
32-bit integer, a negative one in two's complement. -/
def toLowerHex (code : Int) : String :=
  String.mk (Nat.toDigits 16 (code % (2 : Int) ^ 32).toNat)

/-- The body of the `do` loop of `displayException`, up to the step to the inner
exception: the two `stringBuilder->Append` calls. -/
def appendException (stringBuilder : String) (exception : Exception) : String :=
  let stringBuilder := stringBuilder ++ (exception.Message ++ "  ")
  match exception.NativeErrorCode with
  | some code => stringBuilder ++ ("Error code 0x" ++ toLowerHex code ++ ".  ")
  | none => stringBuilder

/-- The `do { ... } while (exception != nullptr)` loop of `displayException`,
started with the given content of the string builder and count of iterations
done; gives the final content and the final count. -/
def displayExceptionLoop (stringBuilder : String) (iterations : Nat) :
    Exception → String × Nat
  | .last m c => (appendException stringBuilder (.last m c), iterations + 1)
  | .wrap m c inner =>
    displayExceptionLoop (appendException stringBuilder (.wrap m c inner)) (iterations + 1) inner

/-- The function `displayException` of both examples: the text it hands to
`MessageBox::Show`. -/
def displayException (exception : Exception) : String :=
  (displayExceptionLoop "" 0 exception).1

/-- The text the claim describes for one exception: its `Message` followed by
two spaces, followed for a `Win32Exception` by "Error code 0x", the lowercase
hexadecimal `NativeErrorCode` and ".  ". -/
def describedPiece (exception : Exception) : String :=
  exception.Message ++ "  " ++
    (match exception.NativeErrorCode with
     | some code => "Error code 0x" ++ toLowerHex code ++ ".  "
     | none => "")

/-- The text the claim describes for a chain: the pieces of its exceptions
concatenated in order. -/
def describedText : List Exception → String
  | [] => ""
  | e :: es => describedPiece e ++ describedText es

/-- An entry of the list `getConnectedDevices()` returns. -/
structure DeviceListItem where
  serialNumber : String
  deriving DecidableEq

/-- The exception `connectToDevice` throws after its loop. -/
def couldNotFindDevice : Exception :=
  .last ("Could not find device.  Make sure it is plugged in to USB " ++
    "and check your Device Manager (Windows) or run lsusb (Linux).") none

/-- The function `connectToDevice` of both examples (`Usc` in the Maestro
example, `Smc` in the Simple Motor Controller one). `connectedDevices` is the
list `getConnectedDevices()` returned, `openDevice` the constructor
`gcnew Usc(dli)` or `gcnew Smc(dli)`. The first iteration of the `for each` loop
returns; the `throw` after the loop is reached when the loop has no iteration. -/
def connectToDevice {Device : Type} (openDevice : DeviceListItem → Except Exception Device)
    (connectedDevices : List DeviceListItem) : Except Exception Device :=
  match connectedDevices with
  | dli :: _ => openDevice dli
  | [] => .error couldNotFindDevice

/-- Modelled from the spec: the native-USB form of a command (§4.4), the triple
`(requestId, value, index)` handed to the control transfer. -/
structure ControlTransfer where
  requestId : Nat
  value : Nat
  index : Nat
  deriving DecidableEq

/-- Modelled from the spec: the failure `InvalidOperand` of the Command Encoder
(§4.4, §7). -/
inductive EncodeError where
  | invalidOperand
  deriving DecidableEq

namespace Maestro

/-- The channel bound of the Maestro profile, channels 0 to 23 (the `channel`
parameter of `TrySetTarget`: "Channel number from 0 to 23"). -/
def channelCount : Nat := 24

/-- Modelled from the spec: the encoder of "set target" in its native-USB form
(§4.4); `Usc::setTarget` is not in the sources. A channel outside the bound, or
a target that is no `UInt16`, is rejected with `InvalidOperand` before anything
is produced; otherwise the request is `REQUEST_SET_TARGET` with the target as
value and the channel as index. -/
def encodeSetTarget (channel target : Nat) : Except EncodeError ControlTransfer :=
  if channel < channelCount ∧ target < 2 ^ 16 then
    .ok ⟨REQUEST_SET_TARGET, target, channel⟩
  else .error .invalidOperand

/-- A connection to a Maestro: the device it was opened on and the control
transfers sent over it so far, oldest first. -/
structure Usc where
  item : DeviceListItem
  sent : List ControlTransfer
  deriving DecidableEq

/-- Modelled from the spec: the exception by which `InvalidOperand` reaches the
caller of `Usc::setTarget`. -/
def invalidOperandException : Exception := .last "InvalidOperand" none

/-- Modelled from the spec: `Usc::setTarget(channel, target)`, which is not in
the sources: encodes the command and, when the encoder accepts the operands,
sends it; a rejected operand throws and nothing is sent. -/
def Usc.setTarget (device : Usc) (channel target : Nat) : Except Exception Usc :=
  match encodeSetTarget channel target with
  | .ok transfer => .ok ⟨device.item, device.sent ++ [transfer]⟩
  | .error _ => .error invalidOperandException

/-- What a run of `TrySetTarget` leaves behind: the control transfers sent to
the device, the text of the message box if one was shown, and whether
`delete device` closed a connection. -/
structure TryOutcome where
  sent : List ControlTransfer
  displayed : Option String
  closed : Bool
  deriving DecidableEq

/-- The function `TrySetTarget(Byte channel, UInt16 target)` of the Maestro
example: `try { device = connectToDevice(); device->setTarget(channel, target); }
catch (Exception^ exception) { displayException(exception); }
finally { delete device; }`. -/
def TrySetTarget (openDevice : DeviceListItem → Except Exception Usc)
    (connectedDevices : List DeviceListItem) (channel target : Nat) : TryOutcome :=
  match connectToDevice openDevice connectedDevices with
  | .error exception => ⟨[], some (displayException exception), false⟩
  | .ok device =>
    match device.setTarget channel target with
    | .error exception => ⟨device.sent, some (displayException exception), true⟩
    | .ok device => ⟨device.sent, none, true⟩

end Maestro

/-! ## Theorems -/

/-- C1: in the Simple Motor Controller serial command table, and in the G2 table
that adds `COMMAND_SET_CURRENT_LIMIT`, any two distinct command bytes differ in
at least two bit positions, and inverting any one of the eight bits of a command
byte never gives a command byte of the same table. -/
theorem commands_differ_by_two_bits :
    (∀ a ∈ Smc.commands, ∀ b ∈ Smc.commands, a ≠ b → 2 ≤ bitDistance a b) ∧
    (∀ a ∈ Smc.commands, ∀ i < 8, flipBit a i ∉ Smc.commands) ∧
    (∀ a ∈ SmcG2.commands, ∀ b ∈ SmcG2.commands, a ≠ b → 2 ≤ bitDistance a b) ∧
    (∀ a ∈ SmcG2.commands, ∀ i < 8, flipBit a i ∉ SmcG2.commands) := by
  refine ⟨?_, ?_, ?_, ?_⟩ <;> decide

/-- C1 at a concrete pair: `COMMAND_MOTOR_FORWARD` (0x85) and `COMMAND_MOTOR_REVERSE`
(0x86) are two bits apart, and inverting bit 0 of 0x85 gives 0x84, not a command. -/
theorem commands_differ_by_two_bits_witness :
    2 ≤ bitDistance 0x85 0x86 ∧ flipBit 0x85 0 = 0x84 ∧ flipBit 0x85 0 ∉ SmcG2.commands :=
  ⟨commands_differ_by_two_bits.1 0x85 (by decide) 0x86 (by decide) (by decide),
   by decide,
   commands_differ_by_two_bits.2.2.2 0x85 (by decide) 0 (by decide)⟩

/-- C2: in every forward/reverse command pair (Jrk low-resolution set target,
and motor forward/reverse with their 7-bit variants in both Simple Motor
Controller generations) the forward byte is odd and the reverse byte is even,
so the two differ in their least significant bit. -/
theorem forward_odd_reverse_even :
    oddEvenPair Jrk.COMMAND_SET_TARGET_LOW_RES_FORWARD Jrk.COMMAND_SET_TARGET_LOW_RES_REVERSE ∧
    oddEvenPair Smc.COMMAND_MOTOR_FORWARD Smc.COMMAND_MOTOR_REVERSE ∧
    oddEvenPair Smc.COMMAND_MOTOR_FORWARD_7BIT Smc.COMMAND_MOTOR_REVERSE_7BIT ∧
    oddEvenPair SmcG2.COMMAND_MOTOR_FORWARD SmcG2.COMMAND_MOTOR_REVERSE ∧
    oddEvenPair SmcG2.COMMAND_MOTOR_FORWARD_7BIT SmcG2.COMMAND_MOTOR_REVERSE_7BIT := by
  decide

/-- C3: every command byte of the Jrk (`BITMASK_` entries apart), of the Maestro
and of the Simple Motor Controller G2 has its most significant bit set, that is,
lies in 0x80..0xFF. -/
theorem command_bytes_have_msb_set :
    (∀ c ∈ Jrk.jrkCommand, msbSet c ∧ 0x80 ≤ c ∧ c ≤ 0xFF) ∧
    (∀ c ∈ Maestro.uscCommand, msbSet c ∧ 0x80 ≤ c ∧ c ≤ 0xFF) ∧
    (∀ c ∈ SmcG2.commands, msbSet c ∧ 0x80 ≤ c ∧ c ≤ 0xFF) := by
  decide

/-- C3 at `COMMAND_GET_STATUS_FLAGS_HALTING`, the Jrk byte written `0xA0+19`. -/
theorem command_bytes_have_msb_set_witness :
    Jrk.COMMAND_GET_STATUS_FLAGS_HALTING = 0xB3 ∧ msbSet 0xB3 ∧ 0x80 ≤ 0xB3 ∧ 0xB3 ≤ 0xFF :=
  ⟨by decide, command_bytes_have_msb_set.1 0xB3 (by decide)⟩

/-- C4: no two-byte member of `jrkVariables` starts at one-based offset 10 under
byte-packed layout, so the command byte `0xA0 + o` for getting a two-byte
variable never equals 0xAA, the Pololu Protocol start byte. -/
theorem jrkVariables_no_two_byte_at_offset_10 (i : Nat) (hi : i < Jrk.jrkVariables.length)
    (h2 : (Jrk.jrkVariables.get ⟨i, hi⟩).size = 2) :
    packedOffset 1 Jrk.jrkVariables i ≠ 10 ∧
    Jrk.getVariable16Command (packedOffset 1 Jrk.jrkVariables i) ≠
      Jrk.POLOLU_PROTOCOL_START_BYTE := by
  revert i
  decide

/-- C4 at member 4, `errorSum`: two bytes at offset 9, fetched by 0xA9. -/
theorem jrkVariables_no_two_byte_at_offset_10_witness :
    packedOffset 1 Jrk.jrkVariables 4 = 9 ∧ Jrk.getVariable16Command 9 = 0xA9 ∧
    (packedOffset 1 Jrk.jrkVariables 4 ≠ 10 ∧
     Jrk.getVariable16Command (packedOffset 1 Jrk.jrkVariables 4) ≠
       Jrk.POLOLU_PROTOCOL_START_BYTE) :=
  ⟨by decide, by decide,
   jrkVariables_no_two_byte_at_offset_10 4 (by decide) (by decide)⟩

/-- C5 as stated fails: `PARAMETER_OUTPUT_NEUTRAL` is a two-byte parameter of
`jrkParameter` declared at offset 10. -/
theorem jrkParameter_two_byte_at_offset_10 :
    ¬ (∀ p ∈ Jrk.jrkParameter, p.kind = ParamKind.twoByte → p.id ≠ 10) := by
  decide

/-- C5, amended: exactly one parameter of `jrkParameter` is declared at offset
10, the two-byte `PARAMETER_OUTPUT_NEUTRAL`; every other parameter, two-byte or
not, is declared at an offset different from 10. -/
theorem jrkParameter_offset_10_is_output_neutral :
    Jrk.PARAMETER_OUTPUT_NEUTRAL ∈ Jrk.jrkParameter ∧
    Jrk.PARAMETER_OUTPUT_NEUTRAL.kind = ParamKind.twoByte ∧
    Jrk.PARAMETER_OUTPUT_NEUTRAL.id = 10 ∧
    (∀ p ∈ Jrk.jrkParameter, p ≠ Jrk.PARAMETER_OUTPUT_NEUTRAL → p.id ≠ 10) := by
  decide

/-- C5, amended, at `PARAMETER_OUTPUT_MINIMUM`, the two-byte parameter at offset 8. -/
theorem jrkParameter_offset_10_is_output_neutral_witness :
    Jrk.PARAMETER_OUTPUT_MINIMUM.kind = ParamKind.twoByte ∧
    Jrk.PARAMETER_OUTPUT_MINIMUM.id ≠ 10 :=
  ⟨by decide,
   jrkParameter_offset_10_is_output_neutral.2.2.2 Jrk.PARAMETER_OUTPUT_MINIMUM
     (by decide) (by decide)⟩

/-- C6: in `jrkParameter` and in `uscParameter`, with every parameter occupying
the offsets `[id, id + width)` (width 1 for one-byte and one-bit parameters, 2
for two-byte ones), the ranges of any two distinct parameters of the same table
are disjoint. -/
theorem parameter_ranges_disjoint :
    List.Pairwise Param.disjoint Jrk.jrkParameter ∧
    (∀ p ∈ Jrk.jrkParameter, ∀ q ∈ Jrk.jrkParameter, p ≠ q → Param.disjoint p q) ∧
    List.Pairwise Param.disjoint Maestro.uscParameter ∧
    (∀ p ∈ Maestro.uscParameter, ∀ q ∈ Maestro.uscParameter, p ≠ q → Param.disjoint p q) := by
  have symm : Symmetric Param.disjoint := fun p q h => Or.symm h
  have hj : List.Pairwise Param.disjoint Jrk.jrkParameter := by decide
  have hm : List.Pairwise Param.disjoint Maestro.uscParameter := by decide
  exact ⟨hj, fun p hp q hq hpq => hj.forall symm hp hq hpq,
         hm, fun p hp q hq hpq => hm.forall symm hp hq hpq⟩

/-- C6 at two neighbours of the Jrk table: the two-byte `PARAMETER_SERIAL_FIXED_BAUD_RATE`
takes offsets 31 and 32, clear of the one-byte `PARAMETER_SERIAL_MODE` at 30. -/
theorem parameter_ranges_disjoint_witness :
    Param.disjoint Jrk.PARAMETER_SERIAL_MODE Jrk.PARAMETER_SERIAL_FIXED_BAUD_RATE :=
  parameter_ranges_disjoint.2.1 Jrk.PARAMETER_SERIAL_MODE (by decide)
    Jrk.PARAMETER_SERIAL_FIXED_BAUD_RATE (by decide) (by decide)

/-- C7: each Jrk parameter block the EEPROM initialization assumes consecutive is
contiguous: in the five-parameter block, in the max-current pair and in the
current-calibration pair every parameter after the first starts at the previous
parameter's offset plus the previous parameter's byte width. -/
theorem consecutive_blocks_contiguous :
    contiguous Jrk.consecutiveDutyBlock ∧
    contiguous Jrk.consecutiveMaxCurrentPair ∧
    contiguous Jrk.consecutiveCurrentCalibrationPair := by
  decide

/-- C8: the Jrk and the Maestro request tables agree on get-parameter 0x81,
set-parameter 0x82, get-variables 0x83, reinitialize 0x90 and start-bootloader
0xFF; in all four request tables every id fits in one byte and the ids of one
table are pairwise distinct. -/
theorem request_ids :
    (Jrk.REQUEST_GET_PARAMETER = 0x81 ∧ Jrk.REQUEST_SET_PARAMETER = 0x82 ∧
     Jrk.REQUEST_GET_VARIABLES = 0x83 ∧ Jrk.REQUEST_REINITIALIZE = 0x90 ∧
     Jrk.REQUEST_START_BOOTLOADER = 0xFF) ∧
    (Maestro.REQUEST_GET_PARAMETER = 0x81 ∧ Maestro.REQUEST_SET_PARAMETER = 0x82 ∧
     Maestro.REQUEST_GET_VARIABLES = 0x83 ∧ Maestro.REQUEST_REINITIALIZE = 0x90 ∧
     Maestro.REQUEST_START_BOOTLOADER = 0xFF) ∧
    ((∀ r ∈ Jrk.jrkRequest, fitsByte r) ∧ Jrk.jrkRequest.Nodup) ∧
    ((∀ r ∈ Maestro.uscRequest, fitsByte r) ∧ Maestro.uscRequest.Nodup) ∧
    ((∀ r ∈ Smc.HpmcRequest, fitsByte r) ∧ Smc.HpmcRequest.Nodup) ∧
    ((∀ r ∈ SmcG2.HpmcRequest, fitsByte r) ∧ SmcG2.HpmcRequest.Nodup) := by
  decide

/-- C9: for every member of `jrkVariables` the one-based offset in its comment is
1 plus the sizes of all members declared before it, and the record is 22 bytes
long. -/
theorem jrkVariables_comment_offsets :
    (∀ i (hi : i < Jrk.jrkVariables.length),
      (Jrk.jrkVariables.get ⟨i, hi⟩).commentOffset =
        some (packedOffset 1 Jrk.jrkVariables i)) ∧
    recordSize Jrk.jrkVariables = 22 := by
  decide

/-- C9 at member 9, `pidPeriodCount`: after seven two-byte and two one-byte
members its offset is 1 + 16 = 17, as its comment says. -/
theorem jrkVariables_comment_offsets_witness :
    packedOffset 1 Jrk.jrkVariables 9 = 17 ∧
    (Jrk.jrkVariables.get ⟨9, by decide⟩).commentOffset =
      some (packedOffset 1 Jrk.jrkVariables 9) :=
  ⟨by decide, jrkVariables_comment_offsets.1 9 (by decide)⟩

/-- C10: for every member of `uscVariables` the zero-based offset in the comment
above it (0, 1, 2, 4, 6, 12, 76, 96, 97, 98) is the sum of the sizes of all
members declared before it under byte-packed layout. -/
theorem uscVariables_comment_offsets :
    Maestro.uscVariables.map Member.commentOffset =
      [some 0, some 1, some 2, some 4, some 6, some 12, some 76, some 96, some 97, some 98] ∧
    (∀ i (hi : i < Maestro.uscVariables.length),
      (Maestro.uscVariables.get ⟨i, hi⟩).commentOffset =
        some (packedOffset 0 Maestro.uscVariables i)) := by
  decide

/-- C10 at member 6, `callStack`: 1 + 1 + 2 + 2 + 6 + 64 = 76. -/
theorem uscVariables_comment_offsets_witness :
    packedOffset 0 Maestro.uscVariables 6 = 76 ∧
    (Maestro.uscVariables.get ⟨6, by decide⟩).commentOffset =
      some (packedOffset 0 Maestro.uscVariables 6) :=
  ⟨by decide, uscVariables_comment_offsets.2 6 (by decide)⟩

/-- C11: the members `uscVariables` declares take 140 bytes under byte-packed
layout, the offset 98 of `servoSetting` plus 6 times the 7 bytes of `struct
servoSetting`, and not the 139 bytes the header's closing comment states. -/
theorem uscVariables_length_is_140 :
    packedOffset 0 Maestro.uscVariables 9 = 98 ∧
    recordSize Maestro.uscVariables =
      98 + Maestro.servoSettingCount * recordSize Maestro.servoSetting ∧
    recordSize Maestro.uscVariables = 140 ∧
    recordSize Maestro.uscVariables ≠ Maestro.uscVariablesCommentLength := by
  decide

/-- C12: the members `struct servoSetting` declares (position, target, speed,
acceleration) take 7 bytes under byte-packed layout, not the 12 bytes per servo
setting the header's comment states. -/
theorem servoSetting_size_is_7 :
    Maestro.servoSetting.map Member.size = [2, 2, 2, 1] ∧
    recordSize Maestro.servoSetting = 7 ∧
    recordSize Maestro.servoSetting ≠ Maestro.servoSettingCommentBytes := by
  decide

/-- C13: the seven servo-0 parameters of the Maestro are contiguous from
`PARAMETER_SERVO0_HOME` to `PARAMETER_SERVO0_ACCELERATION` with widths 2, 1, 1,
2, 1, 1, 1, which sum to 9, and `PARAMETER_SERVO1_HOME` is
`PARAMETER_SERVO0_HOME` plus 9: each servo takes 9 bytes of configuration space. -/
theorem servo_takes_9_bytes :
    Maestro.servo0Block.map Param.width = [2, 1, 1, 2, 1, 1, 1] ∧
    contiguous Maestro.servo0Block ∧
    (Maestro.servo0Block.map Param.width).sum = Maestro.servoConfigurationBytes ∧
    Maestro.PARAMETER_SERVO1_HOME.id =
      Maestro.PARAMETER_SERVO0_HOME.id + Maestro.servoConfigurationBytes ∧
    contiguous (Maestro.servo0Block ++ [Maestro.PARAMETER_SERVO1_HOME]) := by
  decide

/-- Member by member, counting only the first variable ID of each comment: in
`HpmcVariables` of both Simple Motor Controller generations every member starts
at twice the first ID its comment gives and has as many half-words as the
comment gives IDs; the four shadow-register members lie at byte offsets 0, 2, 4
and 54. This leaves the later IDs of a comment unconstrained. -/
theorem hpmcVariables_varId_offsets :
    varIdsMatchOffsets Smc.HpmcVariables ∧ shadowRegisterOffsets Smc.HpmcVariables ∧
    varIdsMatchOffsets SmcG2.HpmcVariables ∧ shadowRegisterOffsets SmcG2.HpmcVariables := by
  decide

/-- Member 17 of the G2 record, `forwardLimits`: first variable ID 30, byte
offset 60, twelve bytes for its six IDs. -/
theorem hpmcVariables_varId_offsets_witness :
    packedOffset 0 (variableMembers SmcG2.HpmcVariables) 17 = 60 ∧
    ((SmcG2.HpmcVariables.get ⟨17, by decide⟩).varIds.head?).map (2 * ·) = some 60 ∧
    (SmcG2.HpmcVariables.get ⟨17, by decide⟩).member.size = 12 :=
  ⟨by decide,
   by decide,
   (hpmcVariables_varId_offsets.2.2.1 17 (by decide)).2.trans (by decide)⟩

/-- C14: half-word by half-word, every variable ID the comments of the G2
`HpmcVariables` give lies at byte offset `2 * k` (`timeMs` taking four bytes for
IDs 28 and 29), and the four shadow-register members lie at byte offsets 0, 2, 4
and 54 in both generations. In the first-generation header the same holds for
every ID but one: the comment of `reverseLimits`, "varId 36 - 40 (45
reserved)", gives ID 45 for the reserved half-word, which lies at byte offset
82, that is ID 41; byte offset 90 is past the end of the 84-byte record. -/
theorem hpmcVariables_half_word_ids :
    varIdsMatchHalfWords SmcG2.HpmcVariables ∧
    ¬ varIdsMatchHalfWords Smc.HpmcVariables ∧
    (∀ i (hi : i < Smc.HpmcVariables.length),
      ∀ j (hj : j < (Smc.HpmcVariables.get ⟨i, hi⟩).varIds.length),
        (i, j) ≠ (18, 5) →
        2 * (Smc.HpmcVariables.get ⟨i, hi⟩).varIds.get ⟨j, hj⟩ =
          packedOffset 0 (variableMembers Smc.HpmcVariables) i + 2 * j) ∧
    ((Smc.HpmcVariables.get ⟨18, by decide⟩).member.name = "reverseLimits" ∧
     (Smc.HpmcVariables.get ⟨18, by decide⟩).varIds = [36, 37, 38, 39, 40, 45] ∧
     (Smc.HpmcVariables.get ⟨18, by decide⟩).varIds.get ⟨5, by decide⟩ = 45 ∧
     packedOffset 0 (variableMembers Smc.HpmcVariables) 18 + 2 * 5 = 82 ∧
     82 = 2 * 41 ∧ 82 ≠ 2 * 45 ∧
     recordSize (variableMembers Smc.HpmcVariables) = 84) ∧
    (SmcG2.HpmcVariables.get ⟨18, by decide⟩).varIds = [36, 37, 38, 39, 40, 41] ∧
    shadowRegisterOffsets Smc.HpmcVariables ∧
    shadowRegisterOffsets SmcG2.HpmcVariables := by
  decide

/-- C15: the mask `ERRORS_ALWAYS_ENABLED` is 0x000F: among the sixteen bits it
has exactly the bits of the errors documented "Always enabled"
(`ERROR_AWAITING_COMMAND`, `ERROR_NO_POWER`, `ERROR_MOTOR_DRIVER`,
`ERROR_INPUT_INVALID`) and no other. -/
theorem errors_always_enabled_mask :
    Jrk.ERRORS_ALWAYS_ENABLED = 0x000F ∧
    (Jrk.errors.filter Jrk.ErrorDoc.alwaysEnabled).map Jrk.ErrorDoc.bit =
      [Jrk.ERROR_AWAITING_COMMAND, Jrk.ERROR_NO_POWER, Jrk.ERROR_MOTOR_DRIVER,
       Jrk.ERROR_INPUT_INVALID] ∧
    (∀ e ∈ Jrk.errors, Jrk.ERRORS_ALWAYS_ENABLED.testBit e.bit = e.alwaysEnabled) ∧
    (∀ b < 16, Jrk.ERRORS_ALWAYS_ENABLED.testBit b = true →
      ∃ e ∈ Jrk.errors, e.bit = b ∧ e.alwaysEnabled = true) := by
  decide

/-- C16: the mask `ERRORS_ALWAYS_LATCHED` is 0x1E81. Of the six errors
documented "Always latched" it has the bits of `ERROR_SERIAL_SIGNAL`,
`ERROR_SERIAL_BUFFER_FULL`, `ERROR_SERIAL_CRC`, `ERROR_SERIAL_PROTOCOL` and
`ERROR_SERIAL_TIMEOUT`, and bit 8 of `ERROR_SERIAL_OVERRUN` is clear. -/
theorem errors_always_latched_misses_serial_overrun :
    Jrk.ERRORS_ALWAYS_LATCHED = 0x1E81 ∧
    (Jrk.errors.filter Jrk.ErrorDoc.alwaysLatched).map Jrk.ErrorDoc.bit = [7, 8, 9, 10, 11, 12] ∧
    (Jrk.errors.filter
      (fun e => e.alwaysLatched && !Jrk.ERRORS_ALWAYS_LATCHED.testBit e.bit)).map Jrk.ErrorDoc.bit =
      [Jrk.ERROR_SERIAL_OVERRUN] ∧
    Jrk.ERRORS_ALWAYS_LATCHED.testBit Jrk.ERROR_SERIAL_OVERRUN = false := by
  decide

/-- C17: bit 0, the bit of `ERROR_AWAITING_COMMAND`, which is documented "Never
latched", is set in the mask `ERRORS_ALWAYS_LATCHED`. -/
theorem errors_always_latched_has_awaiting_command :
    (Jrk.errors.filter Jrk.ErrorDoc.neverLatched).map Jrk.ErrorDoc.bit = [Jrk.ERROR_AWAITING_COMMAND] ∧
    Jrk.ERROR_AWAITING_COMMAND = 0 ∧
    Jrk.ERRORS_ALWAYS_LATCHED.testBit Jrk.ERROR_AWAITING_COMMAND = true := by
  decide

/-- C18: with the one-bit fields of `struct errorBits` allocated from bit 0 in
declaration order, the first eight fields (`awaitingCommand` .. `serialSignal`)
sit at the bit of the `ERROR_*` constant of the same name, and the last three do
not: `serialCRC`, `serialProtocol` and `serialTimeout` sit at bits 8, 9 and 10,
while `ERROR_SERIAL_CRC`, `ERROR_SERIAL_PROTOCOL` and `ERROR_SERIAL_TIMEOUT` are
10, 11 and 12. -/
theorem errorBits_serial_fields_misplaced :
    (Jrk.errorBitsConstants.filter
      (fun nc => bitPositionOf Jrk.errorBits nc.1 != some nc.2)).map Prod.fst =
      ["serialCRC", "serialProtocol", "serialTimeout"] ∧
    bitPositionOf Jrk.errorBits "serialCRC" = some 8 ∧ Jrk.ERROR_SERIAL_CRC = 10 ∧
    bitPositionOf Jrk.errorBits "serialProtocol" = some 9 ∧ Jrk.ERROR_SERIAL_PROTOCOL = 11 ∧
    bitPositionOf Jrk.errorBits "serialTimeout" = some 10 ∧ Jrk.ERROR_SERIAL_TIMEOUT = 12 ∧
    Jrk.errorBits.map BitField.name = Jrk.errorBitsConstants.map Prod.fst := by
  decide

/-- The active errors are the bit positions below 16 that are reported active. -/
theorem activeErrors_eq_filter (rawBits enableConfig latchConfig : Nat)
    (policy : ErrorBitPolicy) :
    activeErrors rawBits enableConfig latchConfig policy =
      (List.range 16).filter (fun bit => reportedActive policy rawBits enableConfig bit) := by
  simp only [activeErrors, interpret, List.filter_map, List.map_map, List.filter_filter]
  have hid : (ErrorCondition.bit ∘ fun bit =>
      (⟨bit, reportedActive policy rawBits enableConfig bit,
        effectiveLatched policy latchConfig bit⟩ : ErrorCondition)) = id := rfl
  rw [hid, List.map_id]
  apply List.filter_congr
  intro bit _
  simp only [Function.comp, reportedActive]
  cases rawBits.testBit bit <;> simp

/-- C19: with effective enable `alwaysEnabled OR enableConfig` and a bit reported
active iff set in `rawBits` and effectively enabled, every bit below 16 of the
policy's always-enabled set that is set in `rawBits` is among the active errors,
whatever `enableConfig` is; and two `enableConfig` values that agree outside the
always-enabled positions give the same active errors. -/
theorem always_enabled_bits_reported_active (policy : ErrorBitPolicy)
    (rawBits latchConfig : Nat) :
    (∀ enableConfig bit, bit < 16 → policy.alwaysEnabled.testBit bit = true →
      rawBits.testBit bit = true →
      bit ∈ activeErrors rawBits enableConfig latchConfig policy) ∧
    (∀ enableConfig1 enableConfig2,
      (∀ bit < 16, policy.alwaysEnabled.testBit bit = false →
        enableConfig1.testBit bit = enableConfig2.testBit bit) →
      activeErrors rawBits enableConfig1 latchConfig policy =
        activeErrors rawBits enableConfig2 latchConfig policy) := by
  constructor
  · intro enableConfig bit hbit hpol hraw
    rw [activeErrors_eq_filter, List.mem_filter]
    exact ⟨List.mem_range.mpr hbit, by simp [reportedActive, effectiveEnabled, hpol, hraw]⟩
  · intro e1 e2 h
    rw [activeErrors_eq_filter, activeErrors_eq_filter]
    apply List.filter_congr
    intro bit hmem
    have hbit : bit < 16 := List.mem_range.mp hmem
    simp only [reportedActive, effectiveEnabled]
    cases hp : policy.alwaysEnabled.testBit bit
    · rw [h bit hbit hp]
    · simp

/-- C19 for the Jrk policy: with raw bits 0x0013 (awaiting command, no power,
input disconnect) and nothing enabled by configuration, bits 0 and 1 are active,
and setting the always-enabled positions 0..3 in the configuration changes nothing. -/
theorem always_enabled_bits_reported_active_witness :
    activeErrors 0x0013 0 0 Jrk.errorBitPolicy = [0, 1] ∧
    1 ∈ activeErrors 0x0013 0 0 Jrk.errorBitPolicy ∧
    activeErrors 0x0013 0 0 Jrk.errorBitPolicy =
      activeErrors 0x0013 0x000F 0 Jrk.errorBitPolicy :=
  ⟨by decide,
   (always_enabled_bits_reported_active Jrk.errorBitPolicy 0x0013 0).1 0 1
     (by decide) (by decide) (by decide),
   (always_enabled_bits_reported_active Jrk.errorBitPolicy 0x0013 0).2 0 0x000F
     (by decide)⟩

/-- Serializing into `count` bytes gives `count` bytes. -/
theorem toLittleEndian_length (n count : Nat) : (toLittleEndian n count).length = count := by
  induction count generalizing n with
  | zero => rfl
  | succ k ih => simp [toLittleEndian, ih]

/-- A value within the width and signedness of its descriptor is read back
unchanged from the little-endian bytes it is stored in. -/
theorem storage_round_trip (d : ParameterDescriptor) (value : Int) (h : d.fitsWidth value) :
    d.fromStorage (fromLittleEndian (toLittleEndian (d.toStorage value) d.param.width)) =
      value := by
  obtain ⟨name, ⟨id, kind⟩, signed, lo, hi, init⟩ := d
  cases kind <;> cases signed <;>
    simp [ParameterDescriptor.fitsWidth, ParamKind.bits] at h <;>
    simp [ParameterDescriptor.fromStorage, ParameterDescriptor.toStorage, Param.width,
      ParamKind.width, toLittleEndian, fromLittleEndian] <;>
    omega

/-- A non-negative value within the width of its descriptor is stored as itself. -/
theorem toStorage_of_unsigned (d : ParameterDescriptor) (value : Int)
    (hs : d.signed = false) (h : d.fitsWidth value) : d.toStorage value = value.toNat := by
  obtain ⟨name, ⟨id, kind⟩, signed, lo, hi, init⟩ := d
  simp only at hs
  subst hs
  cases kind <;>
    simp [ParameterDescriptor.fitsWidth, ParamKind.bits] at h <;>
    simp [ParameterDescriptor.toStorage, Param.width, ParamKind.width] <;>
    omega

/-- In any table, for a name the table resolves to a descriptor and a value
valid for it, the bytes `encodeParameterWrite` produces decode to the value. -/
theorem round_trip_of_lookup (table : List ParameterDescriptor) (name : String)
    (d : ParameterDescriptor) (value : Int) (hl : lookupParameter table name = .ok d)
    (hv : d.valid value) :
    encodeParameterWrite table name value =
      .ok ⟨d.param.id, toLittleEndian (d.toStorage value) d.param.width, d.initParameter⟩ ∧
    parameterRoundTrip table name value = .ok value := by
  have henc : encodeParameterWrite table name value =
      .ok ⟨d.param.id, toLittleEndian (d.toStorage value) d.param.width, d.initParameter⟩ := by
    simp [encodeParameterWrite, hl, hv]
  refine ⟨henc, ?_⟩
  simp [parameterRoundTrip, henc, decodeParameterRead, hl, toLittleEndian_length,
    storage_round_trip d value hv.2.2]

/-- The Jrk descriptor table describes the parameters of `enum jrkParameter` in
order; every name resolves to its own descriptor; every descriptor is unsigned
with a range inside its width. -/
theorem jrk_parameterTable_wellFormed :
    Jrk.parameterTable.map ParameterDescriptor.param = Jrk.jrkParameter ∧
    (∀ d ∈ Jrk.parameterTable,
      Jrk.parameterTable.find? (fun e => e.name == d.name) = some d) ∧
    (∀ d ∈ Jrk.parameterTable,
      d.signed = false ∧ 0 ≤ d.min ∧ d.max < (2 : Int) ^ d.param.kind.bits) := by
  refine ⟨by decide, by decide, by decide⟩

/-- C20: for every parameter of the Jrk table and every value within its
documented range, `encodeParameterWrite` succeeds with the parameter id and the
value serialized little-endian in as many bytes as the parameter is wide, and
`decodeParameterRead` of those bytes returns the value exactly. -/
theorem parameter_round_trip (d : ParameterDescriptor) (hd : d ∈ Jrk.parameterTable)
    (value : Int) (hmin : d.min ≤ value) (hmax : value ≤ d.max) :
    encodeParameterWrite Jrk.parameterTable d.name value =
      .ok ⟨d.param.id, toLittleEndian value.toNat d.param.width, d.initParameter⟩ ∧
    parameterRoundTrip Jrk.parameterTable d.name value = .ok value := by
  obtain ⟨_, hfind, hfit⟩ := jrk_parameterTable_wellFormed
  obtain ⟨hs, h0, hw⟩ := hfit d hd
  have hl : lookupParameter Jrk.parameterTable d.name = .ok d := by
    simp [lookupParameter, hfind d hd]
  have hfits : d.fitsWidth value := by
    simp only [ParameterDescriptor.fitsWidth, hs]
    exact ⟨by omega, by omega⟩
  have hv : d.valid value := ⟨hmin, hmax, hfits⟩
  have h := round_trip_of_lookup Jrk.parameterTable d.name d value hl hv
  rw [toStorage_of_unsigned d value hs hfits] at h
  exact h

/-- C20 at `PARAMETER_INPUT_MAXIMUM` and the value 4000 = 0x0FA0: the write
carries parameter id 6 and the bytes 0xA0, 0x0F, and reading them back gives
4000. -/
theorem parameter_round_trip_witness :
    encodeParameterWrite Jrk.parameterTable "PARAMETER_INPUT_MAXIMUM" 4000 =
      .ok ⟨6, [0xA0, 0x0F], false⟩ ∧
    parameterRoundTrip Jrk.parameterTable "PARAMETER_INPUT_MAXIMUM" 4000 = .ok 4000 :=
  parameter_round_trip
    ⟨"PARAMETER_INPUT_MAXIMUM", Jrk.PARAMETER_INPUT_MAXIMUM, false, 0, 4095, false⟩
    (by decide) 4000 (by decide) (by decide)

/-- A bit of the combined fields is set exactly when some field, shifted to its
offset, has it set. -/
theorem combineFields_testBit (fields : List PackedField) (k : Nat) :
    (combineFields fields).testBit k =
      fields.any (fun f => (f.value <<< f.bitOffset).testBit k) := by
  induction fields with
  | nil => simp [combineFields]
  | cons f fs ih => simp [combineFields, Nat.testBit_or, ih]

/-- A number below `2 ^ w` has no bit set at position `w` or above. -/
theorem testBit_false_of_lt_two_pow (v w k : Nat) (hv : v < 2 ^ w) (hk : w ≤ k) :
    v.testBit k = false :=
  Nat.testBit_lt_two_pow (lt_of_lt_of_le hv (Nat.pow_le_pow_right (by decide) hk))

/-- Reading one field back out of the packed byte gives the value of the field. -/
theorem unpack_field (fields : List PackedField)
    (hfit : ∀ f ∈ fields, f.bitOffset + f.bitWidth ≤ 8)
    (hdis : fields.Pairwise (fun a b => a.layout.disjoint b.layout))
    (hval : ∀ f ∈ fields, f.value < 2 ^ f.bitWidth)
    (f : PackedField) (hf : f ∈ fields) :
    ((combineFields fields % 256) >>> f.bitOffset) % 2 ^ f.bitWidth = f.value := by
  apply Nat.eq_of_testBit_eq
  intro k
  rw [Nat.testBit_mod_two_pow, Nat.testBit_shiftRight]
  by_cases hk : k < f.bitWidth
  · have h8 : f.bitOffset + k < 8 := by have := hfit f hf; omega
    have h256 : (256 : Nat) = 2 ^ 8 := by norm_num
    rw [h256, Nat.testBit_mod_two_pow, combineFields_testBit]
    simp only [hk, h8, decide_True, Bool.true_and]
    cases hb : f.value.testBit k
    · rw [List.any_eq_false]
      intro g hg hgt
      rw [Nat.testBit_shiftLeft] at hgt
      simp only [ge_iff_le, Bool.and_eq_true, decide_eq_true_eq] at hgt
      obtain ⟨hle, hbit⟩ := hgt
      have hlt : f.bitOffset + k - g.bitOffset < g.bitWidth := by
        by_contra hcon
        rw [testBit_false_of_lt_two_pow _ _ _ (hval g hg) (by omega)] at hbit
        exact absurd hbit (by decide)
      by_cases hgf : g = f
      · subst hgf
        have : g.bitOffset + k - g.bitOffset = k := by omega
        rw [this, hb] at hbit
        exact absurd hbit (by decide)
      · have hsymm : Symmetric (fun a b : PackedField => a.layout.disjoint b.layout) :=
          fun a b h => Or.symm h
        have := hdis.forall hsymm hg hf hgf
        simp only [FieldLayout.disjoint, PackedField.layout] at this
        omega
    · rw [List.any_eq_true]
      refine ⟨f, hf, ?_⟩
      rw [Nat.testBit_shiftLeft]
      simp [hb]
  · simp only [hk, decide_False, Bool.false_and]
    exact (testBit_false_of_lt_two_pow _ _ _ (hval f hf) (by omega)).symm

/-- Fields that lie within 8 bits and do not overlap have at most 8 bits in total. -/
theorem widths_sum_le (layout : List FieldLayout)
    (hfit : ∀ l ∈ layout, l.bitOffset + l.bitWidth ≤ 8)
    (hdis : layout.Pairwise FieldLayout.disjoint) :
    (layout.map FieldLayout.bitWidth).sum ≤ 8 := by
  have hnodup : (layout.flatMap (fun l => List.range' l.bitOffset l.bitWidth)).Nodup := by
    rw [List.nodup_flatMap]
    refine ⟨fun l _ => List.nodup_range' _ _, hdis.imp ?_⟩
    intro a b hab
    simp only [Function.onFun]
    intro x hxa hxb
    rw [List.mem_range'_1] at hxa hxb
    simp only [FieldLayout.disjoint] at hab
    omega
  have hsub : layout.flatMap (fun l => List.range' l.bitOffset l.bitWidth) ⊆ List.range 8 := by
    intro x hx
    rw [List.mem_flatMap] at hx
    obtain ⟨l, hl, hxl⟩ := hx
    rw [List.mem_range'_1] at hxl
    have := hfit l hl
    exact List.mem_range.mpr (by omega)
  have hlen := (List.subperm_of_subset hnodup hsub).length_le
  rw [List.length_flatMap, List.length_range] at hlen
  have hmap : List.map (List.length ∘ fun l : FieldLayout => List.range' l.bitOffset l.bitWidth)
      layout = layout.map FieldLayout.bitWidth :=
    List.map_congr_left (fun l _ => by simp)
  rwa [hmap] at hlen

/-- C21: for every list of fields that each lie within the 8 bits of one storage
byte, of which no two overlap, and whose values each fit their field's width,
`packBits` succeeds and `unpackBits` of the packed byte with the same layout
returns the original values. -/
theorem pack_unpack_round_trip (fields : List PackedField)
    (hfit : ∀ f ∈ fields, f.bitOffset + f.bitWidth ≤ 8)
    (hdis : fields.Pairwise (fun a b => a.layout.disjoint b.layout))
    (hval : ∀ f ∈ fields, f.value < 2 ^ f.bitWidth) :
    packBits fields = .ok (combineFields fields % 256) ∧
    unpackBits (combineFields fields % 256) (fields.map PackedField.layout) =
      .ok (fields.map PackedField.value) := by
  have hacc : layoutAccepted (fields.map PackedField.layout) := by
    refine ⟨widths_sum_le _ ?_ ?_, ?_⟩
    · intro l hl
      obtain ⟨f, hf, rfl⟩ := List.mem_map.mp hl
      exact hfit f hf
    · exact List.pairwise_map.mpr hdis
    · exact List.pairwise_map.mpr hdis
  refine ⟨by rw [packBits, if_pos ⟨hval, hacc⟩], ?_⟩
  simp only [unpackBits, hacc, if_true, List.map_map]
  congr 1
  exact List.map_congr_left (fun f hf => unpack_field fields hfit hdis hval f hf)

/-- C21 at the eight one-bit flags `neverSleep` .. `ignorePotDisconnect`, bits 0
to 7 of the G2 settings word, with the values 1, 0, 1, 1, 0, 0, 1, 0: they pack
to 0x4D and unpack to the same values. -/
theorem pack_unpack_round_trip_witness :
    (storageByteLayout SmcG2.HpmcSettingsBitFields).map FieldLayout.bitOffset =
      [0, 1, 2, 3, 4, 5, 6, 7] ∧
    packBits (withValues (storageByteLayout SmcG2.HpmcSettingsBitFields)
      [1, 0, 1, 1, 0, 0, 1, 0]) = .ok 0x4D ∧
    unpackBits 0x4D (storageByteLayout SmcG2.HpmcSettingsBitFields) =
      .ok [1, 0, 1, 1, 0, 0, 1, 0] :=
  ⟨by decide,
   pack_unpack_round_trip
     (withValues (storageByteLayout SmcG2.HpmcSettingsBitFields) [1, 0, 1, 1, 0, 0, 1, 0])
     (by decide) (by decide) (by decide)⟩

/-- C25: the bit-field block that opens the G2 `HpmcSettings` has 13 fields whose
widths sum to 32 bits; allocated from bit 0 in declaration order they do not
overlap, the twelve named one-bit flags occupy bits 0 to 11 (`crcForCommands` at
bit 10, `crcForResponses` at bit 11) and `reservedBits` occupies bits 12 to 31. -/
theorem hpmcSettings_bit_fields :
    SmcG2.HpmcSettingsBitFields.length = 13 ∧
    (SmcG2.HpmcSettingsBitFields.map BitField.width).sum = 32 ∧
    (bitRanges SmcG2.HpmcSettingsBitFields).Pairwise rangesDisjoint ∧
    (bitRanges SmcG2.HpmcSettingsBitFields).take 12 =
      (List.range 12).map (fun i => (i, 1)) ∧
    bitPositionOf SmcG2.HpmcSettingsBitFields "crcForCommands" = some 10 ∧
    bitPositionOf SmcG2.HpmcSettingsBitFields "crcForResponses" = some 11 ∧
    bitPositionOf SmcG2.HpmcSettingsBitFields "reservedBits" = some 12 ∧
    (bitRanges SmcG2.HpmcSettingsBitFields).getLast? = some (12, 20) ∧
    12 + 20 - 1 = 31 := by
  decide

/-- The loop of `displayException` appends the described text of the chain to
the string builder and adds the length of the chain to the count. -/
theorem displayExceptionLoop_eq (exception : Exception) (stringBuilder : String)
    (iterations : Nat) :
    displayExceptionLoop stringBuilder iterations exception =
      (stringBuilder ++ describedText exception.chain,
       iterations + exception.chain.length) := by
  have hstep : ∀ (sb : String) (e : Exception),
      appendException sb e = sb ++ describedPiece e := by
    intro sb e
    simp only [appendException, describedPiece]
    cases e.NativeErrorCode <;> simp [String.append_assoc]
  induction exception generalizing stringBuilder iterations with
  | last m c =>
    simp [displayExceptionLoop, Exception.chain, describedText, hstep]
  | wrap m c inner ih =>
    simp only [displayExceptionLoop, Exception.chain, describedText, hstep, ih,
      List.length_cons, String.append_assoc, Prod.mk.injEq, true_and]
    omega

/-- The chain of an exception with `n` links of `InnerException` has `n + 1`
exceptions. -/
theorem chain_length_eq (exception : Exception) :
    exception.chain.length = exception.innerCount + 1 := by
  induction exception with
  | last m c => rfl
  | wrap m c inner ih => simp [Exception.chain, Exception.innerCount, ih]

/-- C22: with the Maestro channels 0 to 23 and a device connected, setting the
target of channel 0 to 4000 succeeds: the encoder accepts it, `setTarget` sends
exactly that one request and `TrySetTarget` shows no message. Setting the target
of channel 30, or of any channel from 24 on, fails with `InvalidOperand`:
nothing is added to what was sent and `TrySetTarget` shows the failure. -/
theorem setTarget_channel_bound (openDevice : DeviceListItem → Except Exception Maestro.Usc)
    (dli : DeviceListItem) (rest : List DeviceListItem) (device : Maestro.Usc)
    (hopen : openDevice dli = .ok device) :
    (Maestro.encodeSetTarget 0 4000 = .ok ⟨0x85, 4000, 0⟩ ∧
     device.setTarget 0 4000 = .ok ⟨device.item, device.sent ++ [⟨0x85, 4000, 0⟩]⟩ ∧
     Maestro.TrySetTarget openDevice (dli :: rest) 0 4000 =
       ⟨device.sent ++ [⟨0x85, 4000, 0⟩], none, true⟩) ∧
    (∀ channel target, Maestro.channelCount ≤ channel →
      Maestro.encodeSetTarget channel target = .error .invalidOperand ∧
      device.setTarget channel target = .error Maestro.invalidOperandException ∧
      Maestro.TrySetTarget openDevice (dli :: rest) channel target =
        ⟨device.sent, some (displayException Maestro.invalidOperandException), true⟩) ∧
    (Maestro.channelCount ≤ 30 ∧
      displayException Maestro.invalidOperandException = "InvalidOperand  ") := by
  have h0 : Maestro.encodeSetTarget 0 4000 = .ok ⟨0x85, 4000, 0⟩ := rfl
  refine ⟨⟨h0, ?_, ?_⟩, ?_, by decide, by decide⟩
  · simp [Maestro.Usc.setTarget, h0]
  · simp [Maestro.TrySetTarget, connectToDevice, hopen, Maestro.Usc.setTarget, h0]
  · intro channel target hch
    have hbad : Maestro.encodeSetTarget channel target = .error .invalidOperand := by
      have : ¬ (channel < Maestro.channelCount ∧ target < 2 ^ 16) := by omega
      rw [Maestro.encodeSetTarget, if_neg this]
    refine ⟨hbad, ?_, ?_⟩
    · simp [Maestro.Usc.setTarget, hbad]
    · simp [Maestro.TrySetTarget, connectToDevice, hopen, Maestro.Usc.setTarget, hbad]

/-- C22 with one device connected and channel 30: nothing is sent and the
message box shows "InvalidOperand"; channel 0 with target 4000 sends one request. -/
theorem setTarget_channel_bound_witness :
    Maestro.TrySetTarget (fun dli => .ok ⟨dli, []⟩) [⟨"00012345"⟩] 30 4000 =
      ⟨[], some "InvalidOperand  ", true⟩ ∧
    Maestro.TrySetTarget (fun dli => .ok ⟨dli, []⟩) [⟨"00012345"⟩] 0 4000 =
      ⟨[⟨0x85, 4000, 0⟩], none, true⟩ :=
  have h := setTarget_channel_bound (fun dli => .ok ⟨dli, []⟩) ⟨"00012345"⟩ []
    ⟨⟨"00012345"⟩, []⟩ rfl
  ⟨((h.2.1 30 4000 (by decide)).2.2).trans (by decide), h.1.2.2⟩

/-- C23: when opening a device does not throw, `connectToDevice` returns the
connection to the first item of the list of connected devices if the list is
not empty, and it throws the "Could not find device" exception if and only if
the list is empty. -/
theorem connectToDevice_first_or_not_found {Device : Type}
    (openDevice : DeviceListItem → Except Exception Device)
    (connectedDevices : List DeviceListItem)
    (hopen : ∀ dli ∈ connectedDevices, ∃ device, openDevice dli = .ok device) :
    (∀ dli rest, connectedDevices = dli :: rest →
      connectToDevice openDevice connectedDevices = openDevice dli ∧
      ∃ device, connectToDevice openDevice connectedDevices = .ok device) ∧
    (connectToDevice openDevice connectedDevices = .error couldNotFindDevice ↔
      connectedDevices = []) := by
  cases connectedDevices with
  | nil => simp [connectToDevice]
  | cons first rest =>
    obtain ⟨device, hdev⟩ := hopen first (List.mem_cons_self _ _)
    refine ⟨?_, ?_⟩
    · intro dli rest1 h
      obtain ⟨rfl, rfl⟩ := List.cons.inj h
      exact ⟨rfl, device, hdev⟩
    · simp [connectToDevice, hdev]

/-- C23 with two Maestros connected: the connection is to the first; with none
connected the exception is thrown. -/
theorem connectToDevice_first_or_not_found_witness :
    connectToDevice (fun dli => (.ok ⟨dli, []⟩ : Except Exception Maestro.Usc))
      [⟨"00012345"⟩, ⟨"00067890"⟩] = .ok ⟨⟨"00012345"⟩, []⟩ ∧
    connectToDevice (fun dli => (.ok ⟨dli, []⟩ : Except Exception Maestro.Usc)) [] =
      .error couldNotFindDevice :=
  ⟨((connectToDevice_first_or_not_found
      (fun dli => (.ok ⟨dli, []⟩ : Except Exception Maestro.Usc))
      [⟨"00012345"⟩, ⟨"00067890"⟩] (fun dli _ => ⟨⟨dli, []⟩, rfl⟩)).1
      ⟨"00012345"⟩ [⟨"00067890"⟩] rfl).1,
   (connectToDevice_first_or_not_found
      (fun dli => (.ok ⟨dli, []⟩ : Except Exception Maestro.Usc))
      [] (fun _ h => absurd h (List.not_mem_nil _))).2.mpr rfl⟩

/-- C24: for every chain of exceptions linked by `InnerException`, the loop of
`displayException` ends after as many iterations as the chain has exceptions
(n + 1 for a chain e0 .. en), and the text shown is the concatenation, outermost
first, of each exception's `Message` followed by two spaces, followed for a
`Win32Exception` by "Error code 0x", the lowercase hexadecimal `NativeErrorCode`
and ".  ". -/
theorem displayException_text_and_iterations (exception : Exception) :
    displayExceptionLoop "" 0 exception =
      (describedText exception.chain, exception.innerCount + 1) ∧
    displayException exception = describedText exception.chain ∧
    exception.chain.length = exception.innerCount + 1 := by
  have h := displayExceptionLoop_eq exception "" 0
  simp only [String.empty_append, Nat.zero_add, chain_length_eq] at h
  exact ⟨h, by rw [displayException, h], chain_length_eq exception⟩

/-- C24 at a chain of two: an exception "Failed to set target of servo 0." whose
inner exception is a `Win32Exception` "Access denied" with code 31. Two
iterations, and the text names both, the code as 0x1f. -/
theorem displayException_text_and_iterations_witness :
    displayExceptionLoop "" 0
      (.wrap "Failed to set target of servo 0." none (.last "Access denied" (some 31))) =
      ("Failed to set target of servo 0.  Access denied  Error code 0x1f.  ", 2) :=
  (displayException_text_and_iterations
    (.wrap "Failed to set target of servo 0." none (.last "Access denied" (some 31)))).1.trans
    (by decide)
